import Mathlib

/-!
Verification development for the ERPNextImporter repository.

The definitions below are a shallow embedding of the Python source:
`src/src/erpnext_importer/utils.py` (number / price / barcode helpers),
`src/src/erpnext_importer/api.py` and the near-identical API class in
`src/main.py` (update payload, category hierarchy), and the mapping /
transformation / batch-import logic of `src/main.py`
(`on_mapping_changed`, `auto_map_fields`, `_run_ai_mapping`, `_run_import`).

Modelling conventions:
* Python floats are modelled as exact rationals (ℚ); `round(x, 2)` is
  modelled as round-half-to-even at two decimals, matching CPython's
  behaviour on the values exercised here.
* Python `float(s)` on strings is modelled on its plain decimal-literal
  fragment (optional sign, digits, one optional dot); every string the
  program feeds to `float` after its own preprocessing falls in this
  fragment or is rejected by it exactly as CPython rejects it.
* Python dicts are modelled as insertion-ordered association lists with
  unique keys; assignment to an existing key keeps its position,
  assignment to a fresh key appends, `pop` removes the key.
* `str.lower()` is modelled on ASCII plus the German umlauts appearing
  in the rule tables.
-/

namespace ERPNextImporter

/-! ## Character and string helpers (list-based, kernel-friendly) -/

/-- Python whitespace characters recognised by `str.strip()`. -/
def isPySpace (c : Char) : Bool :=
  c = ' ' ∨ c = '\t' ∨ c = '\n' ∨ c = '\r' ∨ c = '\x0b' ∨ c = '\x0c'

/-- `str.strip()` on a character list. -/
def stripChars (l : List Char) : List Char :=
  ((l.dropWhile isPySpace).reverse.dropWhile isPySpace).reverse

/-- `str.strip()`. -/
def pyStrip (s : String) : String := String.mk (stripChars s.toList)

/-- Replace every occurrence of the character `c` by `d` (models
single-character `str.replace`). -/
def replaceChar (c d : Char) (l : List Char) : List Char :=
  l.map (fun x => if x = c then d else x)

/-- Remove every occurrence of the character `c` (models `str.replace(c, "")`). -/
def removeChar (c : Char) (l : List Char) : List Char :=
  l.filter (fun x => x ≠ c)

/-- Lower-casing of one character: ASCII letters plus the German umlauts
used in the auto-mapping rule table (models `str.lower()` on the
alphabet the program uses). -/
def lowerChar (c : Char) : Char :=
  if 'A' ≤ c ∧ c ≤ 'Z' then Char.ofNat (c.toNat + 32)
  else if c = 'Ä' then 'ä'
  else if c = 'Ö' then 'ö'
  else if c = 'Ü' then 'ü'
  else c

/-- Upper-casing of one character (inverse direction, for the
`uppercase` transform). -/
def upperChar (c : Char) : Char :=
  if 'a' ≤ c ∧ c ≤ 'z' then Char.ofNat (c.toNat - 32)
  else if c = 'ä' then 'Ä'
  else if c = 'ö' then 'Ö'
  else if c = 'ü' then 'Ü'
  else c

/-- `str.lower()`. -/
def pyLower (s : String) : String := String.mk (s.toList.map lowerChar)

/-- `str.upper()`. -/
def pyUpper (s : String) : String := String.mk (s.toList.map upperChar)

/-- `pat.isPrefixOf l` on character lists, Bool-valued. -/
def isPrefixList : List Char → List Char → Bool
  | [], _ => true
  | _ :: _, [] => false
  | a :: as, b :: bs => a = b && isPrefixList as bs

/-- `pat` occurs as a contiguous substring of `l`
(models the Python `in` operator on strings). -/
def subList (pat : List Char) : List Char → Bool
  | [] => pat.isEmpty
  | x :: t => isPrefixList pat (x :: t) || subList pat t

/-- The Python expression `pat in s` for strings. -/
def containsSub (s pat : String) : Bool := subList pat.toList s.toList

/-- `s.split(sep)` worker: splits `l` on the non-empty separator `sep`.
Structural recursion on a fuel argument so the kernel can evaluate it;
each step consumes at least one input character, so fuel `l.length`
(as supplied by `pySplit`) always suffices and the fuel-exhaustion
branch is unreachable. -/
def splitSeqGo (sep : List Char) : ℕ → List Char → List Char → List (List Char)
  | _, [], acc => [acc.reverse]
  | 0, l, acc => [acc.reverse ++ l]
  | fuel + 1, x :: xs, acc =>
    if isPrefixList sep (x :: xs) then
      acc.reverse :: splitSeqGo sep fuel (xs.drop (sep.length - 1)) []
    else
      splitSeqGo sep fuel xs (x :: acc)

/-- Python `s.split(sep)` for a non-empty separator (Python raises on an
empty separator; the program only splits on fixed non-empty literals). -/
def pySplit (s sep : String) : List String :=
  if sep = "" then [s]
  else (splitSeqGo sep.toList s.toList.length s.toList []).map String.mk

/-- All characters are ASCII digits (models `str.isdigit()` on the ASCII
fragment; the barcodes handled by the program are ASCII). -/
def allDigits (l : List Char) : Bool := l.all Char.isDigit

/-- Value of one ASCII digit (0 for non-digits, which the callers
exclude via `allDigits`). -/
def digitVal (c : Char) : ℕ :=
  if c = '0' then 0 else if c = '1' then 1 else if c = '2' then 2
  else if c = '3' then 3 else if c = '4' then 4 else if c = '5' then 5
  else if c = '6' then 6 else if c = '7' then 7 else if c = '8' then 8
  else if c = '9' then 9 else 0

/-- Value of an ASCII digit string. -/
def digitsToNat (l : List Char) : ℕ :=
  l.foldl (fun a c => 10 * a + digitVal c) 0

/-! ## Rational model of Python floats -/

/-- CPython `round` to an integer: round half to even. -/
def roundHalfEven (q : ℚ) : ℤ :=
  let f : ℤ := ⌊q⌋
  let r : ℚ := q - (f : ℚ)
  if r < 1/2 then f
  else if 1/2 < r then f + 1
  else if f % 2 = 0 then f else f + 1

/-- CPython `round(x, 2)`. -/
def pyRound2 (q : ℚ) : ℚ := (roundHalfEven (q * 100) : ℚ) / 100

/-- Core of `float(s)` on an unsigned decimal literal: digits with at
most one dot, at least one digit overall. -/
def decimalCore (s : String) : Option ℚ :=
  match pySplit s "." with
  | [a] =>
    if a ≠ "" ∧ allDigits a.toList then some (digitsToNat a.toList : ℚ)
    else Option.none
  | [a, b] =>
    if (a ≠ "" ∨ b ≠ "") ∧ allDigits a.toList ∧ allDigits b.toList then
      some ((digitsToNat a.toList : ℚ) +
        (digitsToNat b.toList : ℚ) / (10 : ℚ) ^ b.toList.length)
    else Option.none
  | _ => Option.none

/-- Python `float(s)` on the decimal-literal fragment: optional sign,
then digits with an optional dot.  Strings outside this fragment (after
the preprocessing the program applies) raise `ValueError` in Python and
return `none` here. -/
def parseDecimal (s : String) : Option ℚ :=
  if s.toList.head? = some '+' then decimalCore (String.mk s.toList.tail)
  else if s.toList.head? = some '-' then
    (decimalCore (String.mk s.toList.tail)).map Neg.neg
  else decimalCore s

/-! ## Python values -/

/-- The Python values flowing through the importer: `None`, booleans,
ints, floats (as ℚ) and strings. -/
inductive PyVal where
  | none
  | bool (b : Bool)
  | int (n : ℤ)
  | float (q : ℚ)
  | str (s : String)
deriving DecidableEq, Repr

/-- Python truthiness. -/
def PyVal.truthy : PyVal → Bool
  | .none => false
  | .bool b => b
  | .int n => n ≠ 0
  | .float q => q ≠ 0
  | .str s => s ≠ ""

/-- Python `str(v)` on the fragment the program exercises.  Floats with
denominator 1 render as `n.0` like CPython; other rationals use a
fraction rendering (never reached by the claims, which only convert
strings, bools and whole numbers). -/
def PyVal.pyStr : PyVal → String
  | .none => "None"
  | .bool true => "True"
  | .bool false => "False"
  | .int n => toString n
  | .float q => if q.den = 1 then toString q.num ++ ".0"
                else toString q.num ++ "/" ++ toString q.den
  | .str s => s

/-- The Python `isinstance(v, str)` test. -/
def PyVal.isStr : PyVal → Bool
  | .str _ => true
  | _ => false

/-- The payload of a string value. -/
def PyVal.asStr : PyVal → Option String
  | .str s => some s
  | _ => Option.none

/-! ## utils.py -/

/-- `utils.parse_number(value, allow_empty)`: numeric types pass
through (Python bools are numeric, `float(True) = 1.0`); strings are
stripped, spaces removed, then the German-notation rules applied; empty
or unparsable input yields `None` when `allow_empty` else `0.0`. -/
def parse_number (value : PyVal) (allow_empty : Bool) : Option ℚ :=
  match value with
  | .none => if allow_empty then Option.none else some 0
  | .int n => some (n : ℚ)
  | .float q => some q
  | .bool b => some (if b then 1 else 0)
  | .str s0 =>
    if s0 = "" then (if allow_empty then Option.none else some 0)
    else
      let s1 := pyStrip s0
      if s1 = "" then (if allow_empty then Option.none else some 0)
      else
        let l2 := removeChar ' ' s1.toList
        let l3 :=
          if subList [','] l2 ∧ subList ['.'] l2 then
            replaceChar ',' '.' (removeChar '.' l2)
          else if subList [','] l2 then
            replaceChar ',' '.' l2
          else l2
        match parseDecimal (String.mk l3) with
        | some q => some q
        | Option.none => if allow_empty then Option.none else some 0

/-- `utils.brutto_to_netto(brutto, tax_rate)`. -/
def brutto_to_netto (brutto : ℚ) (tax_rate : ℚ) : ℚ :=
  if brutto = 0 then 0
  else pyRound2 (brutto / (1 + tax_rate / 100))

/-- `utils.netto_to_brutto(netto, tax_rate)`. -/
def netto_to_brutto (netto : ℚ) (tax_rate : ℚ) : ℚ :=
  if netto = 0 then 0
  else pyRound2 (netto * (1 + tax_rate / 100))

/-- `utils.INVALID_BARCODES`. -/
def INVALID_BARCODES : List String :=
  ["0", "00000000", "0000000000000", "4017980000000"]

/-- `utils.is_valid_barcode`: all digits, length at least 8, not a
known placeholder. -/
def is_valid_barcode (barcode : String) : Bool :=
  if barcode = "" then false
  else
    let b := pyStrip barcode
    if ¬ (b ≠ "" ∧ allDigits b.toList) then false
    else if b.length < 8 then false
    else if b ∈ INVALID_BARCODES then false
    else true

/-! ## Python dicts as insertion-ordered association lists -/

/-- A Python dict with string keys and arbitrary values, modelled as an
insertion-ordered association list with unique keys. -/
abbrev Record := List (String × PyVal)

/-- `d.get(k)` / `k in d` support: first binding of `k`. -/
def rget (r : Record) (k : String) : Option PyVal :=
  (r.find? (fun p => p.1 = k)).map Prod.snd

/-- `k in d`. -/
def rhas (r : Record) (k : String) : Bool :=
  r.any (fun p => p.1 = k)

/-- `d.pop(k, None)`: the dict after removing key `k`. -/
def rpop (r : Record) (k : String) : Record :=
  r.filter (fun p => p.1 ≠ k)

/-- `d[k] = v`: overwrite in place if the key exists (Python keeps the
key's position), else append. -/
def rset (r : Record) (k : String) (v : PyVal) : Record :=
  if rhas r k then r.map (fun p => if p.1 = k then (k, v) else p)
  else r ++ [(k, v)]

/-- `d.get(k, default)`. -/
def rgetD (r : Record) (k : String) (d : PyVal) : PyVal :=
  (rget r k).getD d

/-! ## api.py / main.py `ERPNextAPI.update_item`

`update_item(item_code, data)` pops `item_code`, `doctype` and `gtin`
from `data` (mutating the caller's dict) and sends the remaining dict as
the PUT request body. -/

/-- The request body of `update_item` — equal to the caller's dict after
the three `pop` calls. -/
def update_item_payload (data : Record) : Record :=
  rpop (rpop (rpop data "item_code") "doctype") "gtin"

/-! ## Field mappings (`FieldMapping`, `AUTO_MAPPING_RULES`, the
mapping-assignment operations of `main.py`) -/

/-- `main.py` dataclass `FieldMapping`. -/
structure FieldMapping where
  source_column : String
  target_field : String
  transform : String
  default_value : String
deriving DecidableEq, Repr

/-- A fresh `FieldMapping(source_column=c, target_field=t)` with the
dataclass defaults `transform="none"`, `default_value=""`. -/
def FieldMapping.fresh (c t : String) : FieldMapping :=
  ⟨c, t, "none", ""⟩

/-- `main.py` `AUTO_MAPPING_RULES`, in source (= dict insertion) order. -/
def AUTO_MAPPING_RULES : List (String × String) := [
  ("artikelnummer", "item_code"),
  ("artikelname", "item_name"),
  ("artikel-nr", "item_code"),
  ("artikel-name", "item_name"),
  ("sku", "item_code"),
  ("name", "item_name"),
  ("bezeichnung", "item_name"),
  ("produktname", "item_name"),
  ("beschreibung", "description"),
  ("beschreibung (html)", "description"),
  ("kurzbeschreibung", "description"),
  ("langbeschreibung", "description"),
  ("artikelbeschreibung", "description"),
  ("aktiv", "disabled"),
  ("artikel aktiv", "disabled"),
  ("deaktiviert", "disabled"),
  ("preis", "standard_rate"),
  ("vk netto", "standard_rate"),
  ("vk_netto", "standard_rate"),
  ("netto_vk", "standard_rate"),
  ("netto-vk", "standard_rate"),
  ("verkaufspreis", "standard_rate"),
  ("verkaufspreis netto", "standard_rate"),
  ("vk brutto", "standard_rate_brutto"),
  ("vk_brutto", "standard_rate_brutto"),
  ("brutto_vk", "standard_rate_brutto"),
  ("verkaufspreis brutto", "standard_rate_brutto"),
  ("ek netto", "valuation_rate"),
  ("ek_netto", "valuation_rate"),
  ("einkaufspreis", "valuation_rate"),
  ("einkaufspreis netto", "valuation_rate"),
  ("ean", "barcode"),
  ("ean/gtin", "barcode"),
  ("gtin", "barcode"),
  ("barcode", "barcode"),
  ("upc", "barcode"),
  ("isbn", "barcode"),
  ("han", "manufacturer_part_no"),
  ("herstellerartikelnummer", "manufacturer_part_no"),
  ("hersteller-artikelnummer", "manufacturer_part_no"),
  ("hersteller artikelnummer", "manufacturer_part_no"),
  ("hersteller", "brand"),
  ("marke", "brand"),
  ("brand", "brand"),
  ("manufacturer", "brand"),
  ("gewicht", "weight_per_unit"),
  ("artikelgewicht", "weight_per_unit"),
  ("versandgewicht", "weight_per_unit"),
  ("gewicht (kg)", "weight_per_unit"),
  ("laenge", "item_length"),
  ("länge", "item_length"),
  ("länge (cm)", "item_length"),
  ("breite", "item_width"),
  ("breite (cm)", "item_width"),
  ("hoehe", "item_height"),
  ("höhe", "item_height"),
  ("höhe (cm)", "item_height"),
  ("warengruppe", "item_group"),
  ("kategorie", "item_group"),
  ("artikelgruppe", "item_group"),
  ("kategorie ebene 1", "category_level_1"),
  ("kategorie ebene 2", "category_level_2"),
  ("kategorie ebene 3", "category_level_3"),
  ("kategorie ebene 4", "category_level_4"),
  ("kategorie (ebene 1)", "category_level_1"),
  ("kategorie (ebene 2)", "category_level_2"),
  ("kategorie (ebene 3)", "category_level_3"),
  ("kategorie (ebene 4)", "category_level_4"),
  ("kategorie_ebene_1", "category_level_1"),
  ("kategorie_ebene_2", "category_level_2"),
  ("kategorie_ebene_3", "category_level_3"),
  ("kategorie_ebene_4", "category_level_4"),
  ("category level 1", "category_level_1"),
  ("category level 2", "category_level_2"),
  ("category level 3", "category_level_3"),
  ("category level 4", "category_level_4"),
  ("kategoriepfad", "category_path"),
  ("kategorie_pfad", "category_path"),
  ("category_path", "category_path"),
  ("hauptkategorie", "category_level_1"),
  ("unterkategorie", "category_level_2"),
  ("herkunftsland", "country_of_origin"),
  ("ursprungsland", "country_of_origin"),
  ("taric", "customs_tariff_number"),
  ("taric-code", "customs_tariff_number"),
  ("zolltarifnummer", "customs_tariff_number"),
  ("zolltarif", "customs_tariff_number"),
  ("seo titel", "seo_title"),
  ("seo-titel", "seo_title"),
  ("titel_tag", "seo_title"),
  ("titel-tag (seo)", "seo_title"),
  ("seo_title", "seo_title"),
  ("meta_title", "seo_title"),
  ("meta title", "seo_title"),
  ("seo beschreibung", "seo_meta_description"),
  ("seo-beschreibung", "seo_meta_description"),
  ("meta_description", "seo_meta_description"),
  ("meta description", "seo_meta_description"),
  ("meta-description (seo)", "seo_meta_description"),
  ("seo_description", "seo_meta_description"),
  ("seo keywords", "seo_keywords"),
  ("seo-keywords", "seo_keywords"),
  ("meta_keywords", "seo_keywords"),
  ("meta keywords", "seo_keywords"),
  ("meta-keywords (seo)", "seo_keywords"),
  ("suchbegriffe", "seo_keywords"),
  ("url pfad", "seo_url_slug"),
  ("url-pfad", "seo_url_slug"),
  ("url_pfad", "seo_url_slug"),
  ("url_slug", "seo_url_slug"),
  ("seo url", "seo_url_slug"),
  ("lieferstatus", "delivery_time"),
  ("lieferzeit", "delivery_time"),
  ("lieferzeit text", "delivery_time"),
  ("farbe", "jattr_farbe"),
  ("material", "jattr_material"),
  ("größe", "jattr_groesse"),
  ("groesse", "jattr_groesse"),
  ("regalsystem", "jattr_regalsystem"),
  ("fachlast", "jattr_fachlast"),
  ("feldlast", "jattr_feldlast"),
  ("gesamtbreite", "jattr_gesamtbreite_mm"),
  ("gesamtbreite (mm)", "jattr_gesamtbreite_mm"),
  ("gesamthöhe", "jattr_gesamthoehe_mm"),
  ("gesamthöhe (mm)", "jattr_gesamthoehe_mm"),
  ("bauweise", "jattr_bauweise"),
  ("bodentyp", "jattr_bodentyp"),
  ("anzahl böden", "jattr_anzahl_boeden"),
  ("anzahl boeden", "jattr_anzahl_boeden"),
  ("ist vaterartikel", "has_variants"),
  ("vaterartikel", "has_variants"),
  ("identifizierungsspalte vaterartikel", "variant_of"),
  ("variante von", "variant_of"),
  ("lagerbestand", "opening_stock"),
  ("bestand", "opening_stock"),
  ("verfügbar", "opening_stock"),
  ("kategoriename", "item_group_name"),
  ("oberkategorie", "parent_item_group")]

/-- Exact dict lookup in the rule table. -/
def rulesLookup (k : String) : Option String :=
  (AUTO_MAPPING_RULES.find? (fun p => p.1 = k)).map Prod.snd

/-- `col_lower`: `source.lower().replace(" ", "_").replace("-", "_")`. -/
def colLower (source : String) : String :=
  String.mk (replaceChar '-' '_' (replaceChar ' ' '_' (source.toList.map lowerChar)))

/-- Characters kept by the regex `[^a-z0-9_]` removal. -/
def isRuleChar (c : Char) : Bool :=
  ('a' ≤ c ∧ c ≤ 'z') ∨ ('0' ≤ c ∧ c ≤ '9') ∨ c = '_'

/-- `col_normalized`: `re.sub(r"[^a-z0-9_]", "", col_lower)`. -/
def colNormalized (source : String) : String :=
  String.mk ((colLower source).toList.filter isRuleChar)

/-- The per-column matching of `auto_map_fields` (`main.py` lines
3034–3046): exact lookup of `col_lower`, then of `col_normalized`, then
the first rule whose key is a substring of `col_lower`; empty string
when nothing matches. -/
def autoMapTarget (source : String) : String :=
  let cl := colLower source
  let cn := colNormalized source
  match rulesLookup cl with
  | some t => t
  | Option.none =>
    match rulesLookup cn with
    | some t => t
    | Option.none =>
      match AUTO_MAPPING_RULES.find? (fun p => containsSub cl p.1) with
      | some p => p.2
      | Option.none => ""

/-- The mapping dict `self.field_mappings`: source column → FieldMapping,
insertion-ordered. -/
abbrev MapState := List (String × FieldMapping)

/-- Dict lookup in the mapping state. -/
def mlookup (st : MapState) (col : String) : Option FieldMapping :=
  (st.find? (fun p => p.1 = col)).map Prod.snd

/-- Dict assignment in the mapping state. -/
def mset (st : MapState) (col : String) (fm : FieldMapping) : MapState :=
  if st.any (fun p => p.1 = col) then
    st.map (fun p => if p.1 = col then (col, fm) else p)
  else st ++ [(col, fm)]

/-- `ERPNextImporterApp.on_mapping_changed(source_col, target_field)`
(`main.py` lines 2988–3006): with a non-empty target, every other
column currently holding that target is deleted and one notice logged
per deletion (the notice names the target field); then the edited
column is assigned the target (updating its existing mapping in place,
or creating a fresh one).  An empty target deletes the column's
mapping.  Returns the new state and the emitted log lines. -/
def on_mapping_changed (st : MapState) (source_col target_field : String) :
    MapState × List String :=
  if target_field ≠ "" then
    let evicted := st.filter
      (fun p => p.1 ≠ source_col ∧ p.2.target_field = target_field)
    let st1 := st.filter
      (fun p => ¬ (p.1 ≠ source_col ∧ p.2.target_field = target_field))
    let st2 :=
      if st1.any (fun p => p.1 = source_col) then
        st1.map (fun p =>
          if p.1 = source_col then (p.1, { p.2 with target_field := target_field })
          else p)
      else st1 ++ [(source_col, FieldMapping.fresh source_col target_field)]
    (st2, evicted.map (fun _ =>
      "Feld " ++ target_field ++ " war bereits vergeben - altes Mapping entfernt"))
  else (st.filter (fun p => p.1 ≠ source_col), [])

/-- Accumulator of the `auto_map_fields` / AI-mapping passes: the
mapping dict, the `used_targets` set and the mapped counter. -/
structure PassState where
  st : MapState
  used : List String
  count : ℕ

/-- One column step of `ERPNextImporterApp.auto_map_fields` (`main.py`
lines 3029–3056): compute the rule target; assign it only when non-empty
and not already in `used_targets` (no eviction of prior holders). -/
def autoMapStep (a : PassState) (col : String) : PassState :=
  let t := autoMapTarget col
  if t ≠ "" ∧ t ∉ a.used then
    { st := mset a.st col (FieldMapping.fresh col t),
      used := a.used ++ [t], count := a.count + 1 }
  else a

/-- `ERPNextImporterApp.auto_map_fields` over the UI's column rows: a
fold of `autoMapStep` starting from the current mapping dict and an
empty `used_targets` set.  The dict is not cleared first. -/
def auto_map_fields (st : MapState) (cols : List String) : MapState :=
  (cols.foldl autoMapStep ⟨st, [], 0⟩).st

/-- One column step of the AI-mapping application loop of
`ERPNextImporterApp._run_ai_mapping` (`main.py` lines 3123–3138): if the
(already validated) suggestion dict proposes a target for this column
and that target is not in `used_targets`, assign it; otherwise skip. -/
def aiApplyStep (sugg : List (String × String)) (a : PassState) (col : String) :
    PassState :=
  match (sugg.find? (fun p => p.1 = col)).map Prod.snd with
  | some t =>
    if t ∉ a.used then
      { st := mset a.st col (FieldMapping.fresh col t),
        used := a.used ++ [t], count := a.count + 1 }
    else a
  | Option.none => a

/-- The AI-mapping application pass over the UI's column rows. -/
def ai_apply_mappings (st : MapState) (cols : List String)
    (sugg : List (String × String)) : MapState :=
  (cols.foldl (aiApplyStep sugg) ⟨st, [], 0⟩).st

/-! ## Remote state, category hierarchy (`ERPNextAPI` in `api.py` and
`main.py` — the two copies are identical in the modelled methods) -/

/-- A remote mutating request issued by the importer. -/
inductive ApiCall where
  | createItem (code : String)
  | updateItem (code : String)
  | createPrice (code : String) (rate : PyVal)
  | createGroup (name parent : String)
  | createAttr (name : String) (values : List String) (numeric : Bool)
  | createVariant (template code : String)
deriving DecidableEq, Repr

/-- The remote ERP system plus the API object's session caches, and
oracles fixing the outcome of each create/update request.  `items` and
`groups` merge the remote table with the name cache: `get_item` /
`get_item_group` report a hit iff the name is in the list, and a
successful create appends to it. -/
structure ApiState where
  items : List String
  groups : List String
  defaultGroup : String
  itemCreateOk : String → Bool
  itemUpdateOk : String → Bool
  groupCreateOk : String → Bool
  attrCreateOk : String → Bool
  variantCreateOk : String → Bool

/-- `get_item_group(name)` viewed as an existence check. -/
def get_item_group (api : ApiState) (name : String) : Bool :=
  name ∈ api.groups

/-- `create_item_group({item_group_name, parent_item_group})` as called
by `ensure_category_hierarchy`: short-circuits (no request) when the
group already exists; otherwise issues the POST, whose outcome the
oracle fixes, and caches the name on success.
Returns (ok, new state, issued calls). -/
def create_item_group (api : ApiState) (name parent : String) :
    Bool × ApiState × List ApiCall :=
  if get_item_group api name then (true, api, [])
  else if api.groupCreateOk name then
    (true, { api with groups := api.groups ++ [name] }, [.createGroup name parent])
  else (false, api, [.createGroup name parent])

/-- Result of `ensure_category_hierarchy`: the returned bottom category,
the new state, the issued calls, the log lines, and whether the walk was
aborted by a failed creation (the `break` branch). -/
structure EnsureResult where
  bottom : String
  api : ApiState
  calls : List ApiCall
  logs : List String
  failed : Bool

/-- The level walk of `ensure_category_hierarchy`: existing levels are
adopted as parent, missing levels are created under the current parent;
a failed creation logs and stops the walk. -/
def ensureLoop (api : ApiState) (parent last : String) :
    List String → EnsureResult
  | [] => ⟨last, api, [], [], false⟩
  | l :: rest =>
    if get_item_group api l then
      let r := ensureLoop api l l rest
      { r with logs := ("Kategorie existiert: " ++ l) :: r.logs }
    else
      let c := create_item_group api l parent
      if c.1 then
        let r := ensureLoop c.2.1 l l rest
        { r with calls := c.2.2 ++ r.calls,
                 logs := ("Kategorie erstellt: " ++ l ++ " (unter " ++ parent ++ ")") :: r.logs }
      else
        ⟨last, c.2.1, c.2.2,
          ["FEHLER: Kategorie " ++ l ++ " konnte nicht erstellt werden"], true⟩

/-- `ERPNextAPI.ensure_category_hierarchy(levels)` (`api.py` lines
396–432 / `main.py` lines 912–963): empty input returns the configured
default group; levels are stripped and empty ones dropped; then the walk
starts with the default group as parent. -/
def ensure_category_hierarchy (api : ApiState) (levels : List String) :
    EnsureResult :=
  if levels = [] then ⟨api.defaultGroup, api, [], [], false⟩
  else
    let lv := (levels.filter (fun l => l ≠ "" ∧ pyStrip l ≠ "")).map pyStrip
    if lv = [] then ⟨api.defaultGroup, api, [], [], false⟩
    else ensureLoop api api.defaultGroup api.defaultGroup lv

/-- `ERPNextAPI.parse_category_path(path)`: try the separators in
priority order; split on the first one occurring in the path; fall back
to the stripped path as a single level. -/
def CATEGORY_SEPS : List String := [" > ", " -> ", " >> ", " / ", "/", ">", "|"]

/-- See `CATEGORY_SEPS`. -/
def parse_category_path (path : String) : List String :=
  if path = "" then []
  else
    match CATEGORY_SEPS.find? (fun sep => containsSub path sep) with
    | some sep => ((pySplit path sep).map pyStrip).filter (fun p => p ≠ "")
    | Option.none => if pyStrip path = "" then [] else [pyStrip path]

/-! ## Row transformation and the import loop
(`ERPNextImporterApp._run_import`, `main.py` lines 3301–3550)

The remote call sites in the Python API wrappers catch internally and
return an (ok, message) pair, so they never raise into the per-row
`try`.  The loop body itself can raise, and the per-row `except` then
counts an error, logs, and skips the progress report.  The reachable
raise points are modelled explicitly: a truthy non-string
`category_path` raises TypeError inside `parse_category_path`
(`sep in path`, line 3392); a truthy non-string category level raises
AttributeError at `l.strip()` inside `ensure_category_hierarchy`
(line 928); any non-string category level raises TypeError at
`" > ".join(...)` in the dry-run log (line 3404); a truthy non-string
`attribute_values` raises AttributeError at `.split(",")`
(line 3458).  These are reachable because the record keeps raw values
and the `number`/`bool` transforms can place floats/bools under any
target key. -/

/-- One source row: CSV column name → raw string value. -/
abbrev SourceRow := List (String × String)

/-- `row.get(source_col, "")`. -/
def rowGet (row : SourceRow) (col : String) : String :=
  ((row.find? (fun p => p.1 = col)).map Prod.snd).getD ""

/-- `re.sub(r"<[^>]+>", "", s)` worker: fuel-based structural recursion
(fuel `l.length` always suffices; each step consumes at least one input
character). -/
def htmlStripGo : ℕ → List Char → List Char
  | 0, l => l
  | _ + 1, [] => []
  | fuel + 1, c :: rest =>
    if c = '<' then
      let pre := rest.takeWhile (fun x => x ≠ '>')
      if 1 ≤ pre.length ∧ pre.length < rest.length then
        htmlStripGo fuel (rest.drop (pre.length + 1))
      else c :: htmlStripGo fuel rest
    else c :: htmlStripGo fuel rest

/-- The `html_strip` transform. -/
def htmlStrip (s : String) : String :=
  String.mk (htmlStripGo s.toList.length s.toList)

/-- The per-mapping transform of `_run_import` (lines 3318–3333).  Note
the `number` transform is a plain comma→dot conversion (unlike
`utils.parse_number` it has no thousands-separator handling) with
fallback 0.0, and `bool` compares the lower-cased value against a fixed
truthy set. -/
def applyTransform (transform : String) (value : String) : PyVal :=
  if transform = "trim" then .str (pyStrip value)
  else if transform = "uppercase" then .str (pyUpper value)
  else if transform = "lowercase" then .str (pyLower value)
  else if transform = "number" then
    match parseDecimal (String.mk (removeChar ' ' (replaceChar ',' '.' value.toList))) with
    | some q => .float q
    | Option.none => .float 0
  else if transform = "bool" then
    .bool (pyLower value ∈ ["1", "true", "ja", "yes", "y"])
  else if transform = "html_strip" then .str (htmlStrip value)
  else .str value

/-- One mapping of the per-row transformation (lines 3315–3336): take
the raw cell (falling back to the default value when the cell is
empty/missing), apply the transform, and write the result into the
record only when it is Python-truthy (`if value:`). -/
def transformStep (row : SourceRow) (item : Record) (p : String × FieldMapping) :
    Record :=
  let raw := rowGet row p.1
  let raw1 := if raw = "" then p.2.default_value else raw
  let v := applyTransform p.2.transform raw1
  if v.truthy then rset item p.2.target_field v else item

/-- Steps 1–3 of the per-row transformation (lines 3314–3336). -/
def transformRow (row : SourceRow) (mappings : MapState) : Record :=
  mappings.foldl (transformStep row) []

/-- `float(str(v).replace(",", ".").replace(" ", ""))` as applied by the
gross-price post-processing: on a string, comma→dot then space removal
then `float`; a float round-trips through `str`; an int converts; bools
and `None` raise (→ `none`). -/
def pyFloatCoerce (v : PyVal) : Option ℚ :=
  match v with
  | .str s => parseDecimal (String.mk (removeChar ' ' (replaceChar ',' '.' s.toList)))
  | .float q => some q
  | .int n => some (n : ℚ)
  | .bool _ => Option.none
  | .none => Option.none

/-- Gross-price post-processing (lines 3341–3349): pop the gross key;
try the plain comma→dot float conversion; on success store
`round(brutto / 1.19, 2)` (the 19% rate is hardcoded) under
`standard_rate`; on failure store nothing (`except: pass`). -/
def processBrutto (item : Record) : Record :=
  if rhas item "standard_rate_brutto" then
    let b := rgetD item "standard_rate_brutto" (.str "")
    let item1 := rpop item "standard_rate_brutto"
    match pyFloatCoerce b with
    | some q => rset item1 "standard_rate" (.float (pyRound2 (q / (119/100))))
    | Option.none => item1
  else item

/-- Barcode post-processing (lines 3352–3358): pop the raw `barcode`
key; keep the stripped string under `gtin` iff it is non-empty, at least
8 characters long and not the literal `"0"` (no digit check, no
placeholder denylist). -/
def processBarcode (item : Record) : Record :=
  if rhas item "barcode" then
    let bc := rgetD item "barcode" (.str "")
    let item1 := rpop item "barcode"
    if bc.truthy ∧ pyStrip bc.pyStr ≠ "" then
      let s := pyStrip bc.pyStr
      if 8 ≤ s.length ∧ s ≠ "0" ∧ s ≠ "" then rset item1 "gtin" (.str s)
      else item1
    else item1
  else item

/-- Active-flag inversion (lines 3361–3368): a string or boolean under
the `disabled` key is interpreted as an active flag and inverted to
0/1. -/
def processDisabled (item : Record) : Record :=
  if rhas item "disabled" then
    match rgetD item "disabled" .none with
    | .str s =>
      rset item "disabled"
        (.int (if pyLower s ∈ ["1", "true", "ja", "yes", "y", "aktiv"] then 0 else 1))
    | .bool b => rset item "disabled" (.int (if b then 0 else 1))
    | _ => item
  else item

/-- HTML-description alias (lines 3371–3374): rename `description_html`
to `description` when the latter is absent, else drop it. -/
def processDescriptionAlias (item : Record) : Record :=
  if rhas item "description_html" ∧ ¬ rhas item "description" then
    rset (rpop item "description_html") "description"
      (rgetD item "description_html" (.str ""))
  else if rhas item "description_html" then rpop item "description_html"
  else item

/-- Pop `category_level_1..4` from the record, in order, collecting the
present raw values (lines 3383–3386; Python appends the popped value
itself, which need not be a string). -/
def popLevels (item : Record) : Record × List PyVal :=
  [1, 2, 3, 4].foldl (fun (st : Record × List PyVal) i =>
    let key := "category_level_" ++ toString i
    if rhas st.1 key then
      (rpop st.1 key, st.2 ++ [rgetD st.1 key (.str "")])
    else st) (item, [])

/-- The import configuration read from the UI before the loop. -/
structure RunConfig where
  importType : String
  mode : String
  dryRun : Bool
  hasApi : Bool

/-- Per-row outcome: counter increments, the progress reports emitted
for this row, the issued remote calls, the log lines, the new remote
state, and (as a specification observer) the record at the decision
point. -/
structure RowOut where
  dsuccess : ℕ
  derrors : ℕ
  dskipped : ℕ
  progress : List (ℕ × ℕ)
  calls : List ApiCall
  logs : List String
  api : ApiState
  record : Record

/-- The level-collection part of the category handling (lines
3380–3394): pop the discrete levels, then let a `category_path` value
override them.  Returns `none` when Python raises: a truthy non-string
`category_path` hits `sep in path` inside `parse_category_path`
(TypeError, line 3392). -/
def rowCategoryCore (cfg : RunConfig) (item : Record) :
    Option (Record × List PyVal) :=
  let pl := popLevels item
  if rhas pl.1 "category_path" then
    let p := rgetD pl.1 "category_path" (.str "")
    let item1p := rpop pl.1 "category_path"
    if p.truthy ∧ cfg.hasApi then
      if p.isStr then
        let parsed := parse_category_path p.pyStr
        some (item1p, if parsed ≠ [] then parsed.map PyVal.str else pl.2)
      else Option.none
    else some (item1p, pl.2)
  else some pl

/-- Whether the level list makes the rest of the category block raise
(this never depends on the remote state): a live build raises
AttributeError at `l.strip()` on the first truthy non-string level
(line 928; falsy levels are skipped by the `if l` guard first), and a
dry run raises TypeError at `" > ".join(...)` on any non-string level
(line 3404). -/
def categoryFinishRaises (cfg : RunConfig) (lvls : List PyVal) : Bool :=
  if lvls ≠ [] ∧ cfg.hasApi ∧ ¬ cfg.dryRun then
    lvls.any (fun l => l.truthy && !l.isStr)
  else if lvls ≠ [] ∧ cfg.dryRun then
    lvls.any (fun l => !l.isStr)
  else false

/-- Category-hierarchy handling inside `_run_import` (lines 3379–3406)
for the `artikel`/`preise` import kinds.  `none` signals an exception
that the per-row `except` handler catches (error counted, no progress
report); every raise happens before any remote call, so the remote
state is unchanged.  In the non-raising live case all truthy levels are
strings, so handing `ensure_category_hierarchy` the string values
(`filterMap asStr`) matches Python: its comprehension drops the falsy
non-string levels via the `if l` guard exactly as `filterMap` plus the
emptiness filter do. -/
def rowCategory (cfg : RunConfig) (api : ApiState) (item : Record) :
    Option (Record × ApiState × List ApiCall × List String) :=
  if cfg.importType = "artikel" ∨ cfg.importType = "preise" then
    match rowCategoryCore cfg item with
    | Option.none => Option.none
    | some pc =>
      if pc.2 ≠ [] ∧ cfg.hasApi ∧ ¬ cfg.dryRun then
        if pc.2.any (fun l => l.truthy && !l.isStr) then Option.none
        else
          let r := ensure_category_hierarchy api (pc.2.filterMap PyVal.asStr)
          some (rset pc.1 "item_group" (.str r.bottom), r.api, r.calls, r.logs)
      else if pc.2 ≠ [] ∧ cfg.dryRun then
        if pc.2.any (fun l => !l.isStr) then Option.none
        else
          some (rset pc.1 "item_group" (pc.2.getLastD (.str "")), api, [],
            ["[DRY] Kategorie-Hierarchie: " ++
              String.intercalate " > " (pc.2.filterMap PyVal.asStr)])
      else some (pc.1, api, [], [])
  else some (item, api, [], [])

/-- Whether this row's category block raises, as a function of the
configuration and the assembled record only. -/
def categoryRaises (cfg : RunConfig) (item : Record) : Bool :=
  if cfg.importType = "artikel" ∨ cfg.importType = "preise" then
    match rowCategoryCore cfg item with
    | Option.none => true
    | some pc => categoryFinishRaises cfg pc.2
  else false

/-- The `identifier` used in log lines (line 3376). -/
def rowIdentifier (item : Record) (i : ℕ) : String :=
  let a := rget item "item_code"
  if (a.getD .none).truthy then (a.getD .none).pyStr
  else
    match rget item "item_group_name" with
    | some v => v.pyStr
    | Option.none => "Row " ++ toString (i + 1)

/-- Dict assignment for string-valued dicts (same semantics as `rset`). -/
def sset (r : List (String × String)) (k v : String) : List (String × String) :=
  if r.any (fun p => p.1 = k) then r.map (fun p => if p.1 = k then (k, v) else p)
  else r ++ [(k, v)]

/-- The variant attributes gathered from the fixed slots and the three
generic `name:value` slots (lines 3490–3503), as an insertion-ordered
dict; `attribute_i` is split on the first `:` (Python `split(":", 1)`),
both halves stripped. -/
def variantAttributes (item : Record) : List (String × String) :=
  let fixed := [("attribute_color", "Farbe"), ("attribute_size", "Größe"),
    ("attribute_material", "Material")].foldl
    (fun (acc : List (String × String)) p =>
      let v := rgetD item p.1 (.str "")
      if v.truthy then sset acc p.2 v.pyStr else acc) []
  [("attribute_1" : String), "attribute_2", "attribute_3"].foldl
    (fun acc k =>
      let v := rgetD item k (.str "")
      if v.truthy ∧ containsSub v.pyStr ":" then
        let parts := pySplit v.pyStr ":"
        sset acc (pyStrip (parts.headD "")) (pyStrip (String.intercalate ":" parts.tail))
      else acc) fixed

/-- The decision part of one row (everything after the record is
assembled): counter increments, issued calls, log lines, new remote
state, and whether the row ended in a `continue` statement (which
skips the progress report). -/
structure RowDecision where
  dsuccess : ℕ
  derrors : ℕ
  dskipped : ℕ
  calls : List ApiCall
  logs : List String
  api : ApiState
  contin : Bool

/-- The create-or-update decision for the `artikel`/`preise` kinds
(lines 3413–3439). -/
def productDecision (api : ApiState) (mode : String) (identifier : String)
    (item : Record) : RowDecision :=
  let key := (rgetD item "item_code" (.str "")).pyStr
  let existing : Bool := key ∈ api.items
  if existing ∧ mode = "create" then ⟨0, 0, 1, [], [], api, false⟩
  else if ¬ existing ∧ mode = "update" then ⟨0, 0, 1, [], [], api, false⟩
  else if existing then
    if api.itemUpdateOk key then ⟨1, 0, 0, [.updateItem key], [], api, false⟩
    else ⟨0, 1, 0, [.updateItem key],
      ["Fehler " ++ identifier ++ ": Update fehlgeschlagen"], api, false⟩
  else
    -- create_item returns (False, "item_code fehlt") without a request
    -- when the record has no item_code; otherwise it issues the POST
    -- and caches the new code on success.
    if ¬ rhas item "item_code" then
      ⟨0, 1, 0, [], ["Fehler " ++ identifier ++ ": item_code fehlt"], api, false⟩
    else if api.itemCreateOk key then
      let api1 := { api with items := api.items ++ [key] }
      if rhas item "standard_rate" then
        ⟨1, 0, 0, [.createItem key, .createPrice key (rgetD item "standard_rate" .none)],
          [], api1, false⟩
      else ⟨1, 0, 0, [.createItem key], [], api1, false⟩
    else ⟨0, 1, 0, [.createItem key],
      ["Fehler " ++ identifier ++ ": Erstellen fehlgeschlagen"], api, false⟩

/-- The `kategorien` decision (lines 3441–3447): `create_item_group` on
the record, counting an already-existing group as success. -/
def categoryDecision (api : ApiState) (identifier : String) (item : Record) :
    RowDecision :=
  let name := (rgetD item "item_group_name" (.str "")).pyStr
  let parent := if rhas item "parent_item_group"
    then (rgetD item "parent_item_group" (.str "")).pyStr else api.defaultGroup
  let c := create_item_group api name parent
  if c.1 then ⟨1, 0, 0, c.2.2, [], c.2.1, false⟩
  else ⟨0, 1, 0, c.2.2, ["Fehler " ++ identifier ++ ": Erstellen fehlgeschlagen"],
    c.2.1, false⟩

/-- The `attribute` decision (lines 3449–3477): an empty attribute name
is a row-level hard requirement — the row is counted as an error and the
loop continues (skipping the progress report).  A truthy non-string
`attribute_values` raises AttributeError at `.split(",")` (line 3458);
the per-row `except` then counts an error and also skips the progress
report. -/
def attributeDecision (api : ApiState) (i : ℕ) (item : Record) : RowDecision :=
  let nameVal := rgetD item "attribute_name" (.str "")
  if ¬ nameVal.truthy then
    ⟨0, 1, 0, [], ["Zeile " ++ toString (i + 1) ++ ": Kein Attribut-Name"], api, true⟩
  else if (rgetD item "attribute_values" (.str "")).truthy ∧
      ¬ (rgetD item "attribute_values" (.str "")).isStr then
    ⟨0, 1, 0, [], ["Fehler Zeile " ++ toString (i + 1)], api, true⟩
  else
    let name := nameVal.pyStr
    let valuesVal := rgetD item "attribute_values" (.str "")
    let values := if valuesVal.truthy then
        ((pySplit valuesVal.pyStr ",").map pyStrip).filter (fun v => v ≠ "")
      else []
    let numericVal := rgetD item "numeric_values" (.bool false)
    let numeric := match numericVal with
      | .str s => pyLower s ∈ ["1", "true", "ja", "yes"]
      | v => v.truthy
    if api.attrCreateOk name then
      ⟨1, 0, 0, [.createAttr name values numeric], ["Attribut: " ++ name], api, false⟩
    else ⟨0, 1, 0, [.createAttr name values numeric],
      ["Fehler Attribut " ++ name], api, false⟩

/-- The `varianten` decision (lines 3479–3529): missing variant code or
template, or an empty resolved attribute set, are row-level hard
requirements — counted as errors, loop continues (no progress report). -/
def variantDecision (api : ApiState) (i : ℕ) (item : Record) : RowDecision :=
  let vcode := rgetD item "item_code" (.str "")
  let templ := rgetD item "variant_of" (.str "")
  if ¬ vcode.truthy ∨ ¬ templ.truthy then
    ⟨0, 1, 0, [], ["Zeile " ++ toString (i + 1) ++ ": Varianten-Code oder Vorlage fehlt"],
      api, true⟩
  else
    let attrs := variantAttributes item
    if attrs = [] then
      ⟨0, 1, 0, [], ["Zeile " ++ toString (i + 1) ++ ": Keine Attribute für Variante"],
        api, true⟩
    else if api.variantCreateOk vcode.pyStr then
      ⟨1, 0, 0, [.createVariant templ.pyStr vcode.pyStr], ["Variante: " ++ vcode.pyStr],
        api, false⟩
    else ⟨0, 1, 0, [.createVariant templ.pyStr vcode.pyStr],
      ["Fehler Variante " ++ vcode.pyStr], api, false⟩

/-- The dry-run/live decision of `_run_import` (lines 3408–3532). -/
def rowDecision (cfg : RunConfig) (api : ApiState) (i : ℕ) (identifier : String)
    (item : Record) : RowDecision :=
  if cfg.dryRun then
    ⟨1, 0, 0, [],
      ["[DRY] " ++ identifier ++ ": " ++ String.intercalate ", " (item.map Prod.fst)],
      api, false⟩
  else if ¬ cfg.hasApi then
    ⟨1, 0, 0, [], ["[NO API] " ++ identifier], api, false⟩
  else if cfg.importType = "artikel" ∨ cfg.importType = "preise" then
    productDecision api cfg.mode identifier item
  else if cfg.importType = "kategorien" then
    categoryDecision api identifier item
  else if cfg.importType = "attribute" then
    attributeDecision api i item
  else if cfg.importType = "varianten" then
    variantDecision api i item
  else ⟨0, 0, 0, [], [], api, false⟩

/-- The record of one row after steps 1–3 and the four field-specific
post-processing steps (before category handling). -/
def assembledRecord (row : SourceRow) (mappings : MapState) : Record :=
  processDescriptionAlias (processDisabled (processBarcode (processBrutto
    (transformRow row mappings))))

/-- The body of one row of `_run_import` after the record is assembled:
category handling, decision, progress unless the row ended in
`continue`.  A `none` from the category handling is the per-row
exception: the `except` handler counts an error, logs
`Fehler Zeile i+1: ...`, and the progress report is skipped. -/
def rowBody (cfg : RunConfig) (total : ℕ) (api : ApiState)
    (i : ℕ) (item4 : Record) : RowOut :=
  let identifier := rowIdentifier item4 i
  match rowCategory cfg api item4 with
  | Option.none =>
    { dsuccess := 0, derrors := 1, dskipped := 0, progress := [],
      calls := [], logs := ["Fehler Zeile " ++ toString (i + 1)],
      api := api, record := item4 }
  | some rc =>
    let d := rowDecision cfg rc.2.1 i identifier rc.1
    { dsuccess := d.dsuccess, derrors := d.derrors, dskipped := d.dskipped,
      progress := if d.contin then [] else [(i + 1, total)],
      calls := rc.2.2.1 ++ d.calls, logs := rc.2.2.2 ++ d.logs,
      api := d.api, record := rc.1 }

/-- One full row of `_run_import`: assemble the record (transform, the
four field-specific post-processing steps), then run the row body. -/
def rowStep (cfg : RunConfig) (mappings : MapState) (total : ℕ) (api : ApiState)
    (i : ℕ) (row : SourceRow) : RowOut :=
  rowBody cfg total api i (assembledRecord row mappings)

/-- The accumulated state of the import loop, plus the per-row record
observer. -/
structure RunState where
  success : ℕ
  errors : ℕ
  skipped : ℕ
  progress : List (ℕ × ℕ)
  calls : List ApiCall
  logs : List String
  api : ApiState
  records : List Record

/-- Folding one indexed row into the loop state. -/
def stepFold (cfg : RunConfig) (mappings : MapState) (total : ℕ)
    (st : RunState) (p : ℕ × SourceRow) : RunState :=
  let o := rowStep cfg mappings total st.api p.1 p.2
  { success := st.success + o.dsuccess, errors := st.errors + o.derrors,
    skipped := st.skipped + o.dskipped, progress := st.progress ++ o.progress,
    calls := st.calls ++ o.calls, logs := st.logs ++ o.logs,
    api := o.api, records := st.records ++ [o.record] }

/-- `ERPNextImporterApp._run_import(dry_run)`: enumerate the source
rows and fold them through `rowStep`. -/
def run_import (cfg : RunConfig) (api : ApiState) (mappings : MapState)
    (rows : List SourceRow) : RunState :=
  rows.enum.foldl (stepFold cfg mappings rows.length)
    ⟨0, 0, 0, [], [], [], api, []⟩

/-! ## Observers and spec-side definitions used by the claims -/

/-- Characterization, over the assembled record, of the rows that skip
the progress report: for the `artikel`/`preise` kinds a raising
category block (non-string levels or a non-string category path, caught
by the per-row `except`); in live runs with an API connection, an
`attribute` row lacking a truthy attribute name or with a truthy
non-string `attribute_values` (the `.split` AttributeError), or a
`varianten` row lacking a truthy variant code or template or resolving
zero attributes. -/
def itemHardFail (cfg : RunConfig) (item : Record) : Bool :=
  if cfg.importType = "artikel" ∨ cfg.importType = "preise" then
    categoryRaises cfg item
  else if cfg.dryRun ∨ ¬ cfg.hasApi then false
  else if cfg.importType = "attribute" then
    ¬ (rgetD item "attribute_name" (.str "")).truthy ∨
    ((rgetD item "attribute_values" (.str "")).truthy ∧
      ¬ (rgetD item "attribute_values" (.str "")).isStr)
  else if cfg.importType = "varianten" then
    ¬ (rgetD item "item_code" (.str "")).truthy ∨
    ¬ (rgetD item "variant_of" (.str "")).truthy ∨
    variantAttributes item = []
  else false

/-- The same characterization as a function of the raw source row. -/
def rowHardFail (cfg : RunConfig) (mappings : MapState) (row : SourceRow) : Bool :=
  itemHardFail cfg (assembledRecord row mappings)

/-- Modelled from the claim (C5): the gross-price post-processing as the
specification states it — parse the gross value with the locale-aware
`parse_number`, convert with `brutto_to_netto` at the configured tax
rate, store under the net key, discard the gross key. -/
def processBruttoClaimed (taxRate : ℚ) (item : Record) : Record :=
  if rhas item "standard_rate_brutto" then
    let b := rgetD item "standard_rate_brutto" (.str "")
    let item1 := rpop item "standard_rate_brutto"
    match parse_number b true with
    | some q => rset item1 "standard_rate" (.float (brutto_to_netto q taxRate))
    | Option.none => item1
  else item

/-- Modelled from the claim (C6): the barcode post-processing as the
specification states it — trim, keep under `gtin` iff
`is_valid_barcode`, else drop silently. -/
def processBarcodeClaimed (item : Record) : Record :=
  if rhas item "barcode" then
    let bc := rgetD item "barcode" (.str "")
    let item1 := rpop item "barcode"
    let t := pyStrip bc.pyStr
    if is_valid_barcode t then rset item1 "gtin" (.str t) else item1
  else item

/-- Modelled from the claim (C9): the per-column auto-mapping algorithm
as the specification states it, with a bidirectional fuzzy step (rule
key a substring of the normalized column name, or vice versa). -/
def autoMapTargetClaimed (source : String) : String :=
  let cl := colLower source
  let cn := colNormalized source
  match rulesLookup cl with
  | some t => t
  | Option.none =>
    match rulesLookup cn with
    | some t => t
    | Option.none =>
      match AUTO_MAPPING_RULES.find?
          (fun p => containsSub cl p.1 || containsSub p.1 cl) with
      | some p => p.2
      | Option.none => ""

/-- The amended per-column algorithm: the three stages of the claim with
the fuzzy step one-directional only (rule key a substring of the
normalized column name), written as a priority cascade. -/
def autoMapTargetAmendedSpec (source : String) : String :=
  (((rulesLookup (colLower source)).orElse
      (fun _ => rulesLookup (colNormalized source))).orElse
    (fun _ => (AUTO_MAPPING_RULES.find?
      (fun p => containsSub (colLower source) p.1)).map Prod.snd)).getD ""

/-- A concrete remote state for witnesses: empty remote catalog, default
group `Alle Artikelgruppen`, every create/update accepted. -/
def sampleApi : ApiState :=
  ⟨[], [], "Alle Artikelgruppen", fun _ => true, fun _ => true, fun _ => true,
    fun _ => true, fun _ => true⟩

/-- Concrete scenario (C3): a dry-run `artikel` import. -/
def dryDemoCfg : RunConfig := ⟨"artikel", "both", true, true⟩

/-- Concrete scenario (C3): mappings for code and two category levels. -/
def dryDemoMaps : MapState :=
  [("Artikel-Nr", FieldMapping.fresh "Artikel-Nr" "item_code"),
   ("Kategorie Ebene 1", FieldMapping.fresh "Kategorie Ebene 1" "category_level_1"),
   ("Kategorie Ebene 2", FieldMapping.fresh "Kategorie Ebene 2" "category_level_2")]

/-- Concrete scenario (C3): one source row with a two-level category. -/
def dryDemoRows : List SourceRow :=
  [[("Artikel-Nr", "SKU1"), ("Kategorie Ebene 1", "Möbel"),
    ("Kategorie Ebene 2", "Regale")]]

/-- Concrete scenario (C3, counterexample): a single mapping whose
`bool` transform puts a boolean under `category_level_1`. -/
def dryCtrMaps : MapState := [("Aktiv", ⟨"Aktiv", "category_level_1", "bool", ""⟩)]

/-- Concrete scenario (C3, counterexample): one row whose `Aktiv` cell
is truthy, so the boolean `true` lands under `category_level_1`. -/
def dryCtrRows : List SourceRow := [[("Aktiv", "ja")]]

/-! ## Helper lemmas about the dict model -/

theorem rget_cons (p : String × PyVal) (t : Record) (k : String) :
    rget (p :: t) k = if p.1 = k then some p.2 else rget t k := by
  by_cases h : p.1 = k <;> simp [rget, List.find?, h]

theorem rhas_eq_isSome (r : Record) (k : String) :
    rhas r k = (rget r k).isSome := by
  induction r with
  | nil => simp [rhas, rget]
  | cons p t ih =>
    by_cases h : p.1 = k <;> simp [rhas, List.any_cons, rget_cons, h, ← ih]

theorem rget_rpop (r : Record) (k0 k : String) :
    rget (rpop r k0) k = if k = k0 then Option.none else rget r k := by
  induction r with
  | nil => simp [rget, rpop]
  | cons p t ih =>
    simp only [rpop, List.filter_cons] at ih ⊢
    by_cases h0 : p.1 = k0
    · rw [if_neg (by simp [h0])]
      rw [ih]
      by_cases hk : k = k0
      · simp [hk]
      · have hpk : ¬ p.1 = k := fun h => hk ((h0.symm.trans h).symm)
        simp [hk, rget_cons, hpk]
    · rw [if_pos (by simp [h0])]
      rw [rget_cons, rget_cons, ih]
      by_cases hpk : p.1 = k
      · have hk : ¬ k = k0 := fun h => h0 (hpk.trans h)
        simp [hpk, hk]
      · simp [hpk]

theorem rhas_rpop (r : Record) (k0 k : String) :
    rhas (rpop r k0) k = if k = k0 then false else rhas r k := by
  rw [rhas_eq_isSome, rget_rpop]
  by_cases hk : k = k0 <;> simp [hk, rhas_eq_isSome]

theorem rget_append (a b : Record) (k : String) :
    rget (a ++ b) k = ((rget a k).orElse (fun _ => rget b k)) := by
  induction a with
  | nil => simp [rget]
  | cons p t ih =>
    by_cases h : p.1 = k <;> simp [rget_cons, h, ih]

theorem rget_map_overwrite (t : Record) (k0 k : String) (v : PyVal) :
    rget (t.map (fun p => if p.1 = k0 then (k0, v) else p)) k =
      if k = k0 then (if rhas t k0 then some v else Option.none)
      else rget t k := by
  induction t with
  | nil => simp [rget, rhas]
  | cons p t ih =>
    simp only [List.map_cons]
    by_cases h0 : p.1 = k0
    · rw [if_pos h0, rget_cons]
      by_cases hk : k = k0
      · simp [hk.symm, rhas, List.any_cons, h0]
      · have hk0k : ¬ (k0 = k) := fun h => hk h.symm
        have hpk : ¬ p.1 = k := fun h => hk ((h0.symm.trans h).symm)
        rw [if_neg hk0k, ih, if_neg hk, if_neg hk, rget_cons, if_neg hpk]
    · rw [if_neg h0, rget_cons, ih]
      by_cases hpk : p.1 = k
      · have hk : ¬ k = k0 := fun h => h0 (hpk.trans h)
        simp [rget_cons, hpk, hk]
      · by_cases hk : k = k0
        · simp only [rget_cons, hpk, hk, rhas, List.any_cons, if_pos, if_neg,
            not_false_iff, if_true]
          have hd : decide (p.1 = k0) = false := by simp [h0]
          simp only [hd, Bool.false_or, if_neg h0]
        · simp [rget_cons, hpk, hk]

theorem rget_not_rhas (r : Record) (k : String) (h : rhas r k = false) :
    rget r k = Option.none := by
  have := rhas_eq_isSome r k
  rw [h] at this
  exact Option.not_isSome_iff_eq_none.mp (by simp [← this])

theorem rget_rset (r : Record) (k0 k : String) (v : PyVal) :
    rget (rset r k0 v) k = if k = k0 then some v else rget r k := by
  unfold rset
  by_cases hh : rhas r k0 = true
  · rw [if_pos hh, rget_map_overwrite, hh]
    by_cases hk : k = k0 <;> simp [hk]
  · have hf : rhas r k0 = false := by simpa using hh
    rw [if_neg hh, rget_append]
    by_cases hk : k = k0
    · have : rget r k = Option.none := by
        apply rget_not_rhas
        rw [hk]
        exact hf
      simp [this, rget_cons, hk.symm]
    · cases hr : rget r k with
      | none =>
        have hk0 : ¬ (k0 = k) := fun h => hk h.symm
        simp only [hr, Option.orElse_none, Option.none_orElse, rget_cons, rget,
          List.find?, if_neg hk0, if_neg hk]
        simp [hk0]
      | some w =>
        rw [if_neg hk]
        rfl

theorem rhas_rset (r : Record) (k0 k : String) (v : PyVal) :
    rhas (rset r k0 v) k = if k = k0 then true else rhas r k := by
  rw [rhas_eq_isSome, rget_rset]
  by_cases hk : k = k0 <;> simp [hk, rhas_eq_isSome]

/-! ## Rounding helper lemmas -/

theorem roundHalfEven_eq_low (q : ℚ) (n : ℤ) (h1 : (n : ℚ) ≤ q)
    (h2 : q < (n : ℚ) + 1/2) : roundHalfEven q = n := by
  have hf : ⌊q⌋ = n := by
    rw [Int.floor_eq_iff]
    exact ⟨h1, by linarith⟩
  simp only [roundHalfEven, hf]
  rw [if_pos (by linarith)]

theorem roundHalfEven_eq_high (q : ℚ) (n : ℤ) (h1 : (n : ℚ) + 1/2 < q)
    (h2 : q < (n : ℚ) + 1) : roundHalfEven q = n + 1 := by
  have hf : ⌊q⌋ = n := by
    rw [Int.floor_eq_iff]
    exact ⟨by linarith, by linarith⟩
  simp only [roundHalfEven, hf]
  rw [if_neg (by push_neg; linarith), if_pos (by linarith)]

/-! ## Claim theorems -/

/-- **C10** (confirmed).  For every call to `update_item(item_code,
data)`, the PUT request body never contains the keys `item_code`,
`doctype` or `gtin`: these keys are removed from the record before the
request is issued (the body is the caller's dict after the three
mutating `pop` calls), every other key is passed through unchanged, and
so an update can never change the primary code and never writes a GTIN
through the update path. -/
theorem update_item_strips_protected_keys (data : Record) (k : String) :
    (rget (update_item_payload data) k =
      if k = "item_code" ∨ k = "doctype" ∨ k = "gtin" then Option.none
      else rget data k) ∧
    rhas (update_item_payload data) "item_code" = false ∧
    rhas (update_item_payload data) "doctype" = false ∧
    rhas (update_item_payload data) "gtin" = false := by
  unfold update_item_payload
  refine ⟨?_, ?_, ?_, ?_⟩
  · rw [rget_rpop, rget_rpop, rget_rpop]
    by_cases h1 : k = "gtin" <;> by_cases h2 : k = "doctype" <;>
      by_cases h3 : k = "item_code" <;> simp [h1, h2, h3]
  · simp +decide [rhas_rpop]
  · simp +decide [rhas_rpop]
  · simp +decide [rhas_rpop]

/-- **C7** (confirmed).  `parse_number` accepts numeric values as-is;
for strings it removes spaces and applies the German-notation rules
(both separators present: dots are thousands separators, comma the
decimal separator; only a comma: comma is the decimal separator;
otherwise parse directly); empty or unparsable input yields `None` when
`allow_empty` else `0.0`, and the function is total (never raises). -/
theorem parse_number_locale (q : ℚ) (n : ℤ) (ae : Bool) :
    parse_number (.float q) ae = some q ∧
    parse_number (.int n) ae = some (n : ℚ) ∧
    parse_number (.str "1.234,56") true = some (123456/100) ∧
    parse_number (.str "1234,56") true = some (123456/100) ∧
    parse_number (.str "1234.56") true = some (123456/100) ∧
    parse_number (.str "") true = Option.none ∧
    parse_number (.str "") false = some 0 ∧
    parse_number PyVal.none true = Option.none ∧
    parse_number PyVal.none false = some 0 ∧
    parse_number (.str "abc") true = Option.none ∧
    parse_number (.str "abc") false = some 0 := by
  refine ⟨by simp [parse_number], by simp [parse_number], ?_, ?_, ?_,
    by decide, ?_, by decide, ?_, by decide, ?_⟩
  · simp +decide only [parse_number, pyStrip, stripChars, removeChar, replaceChar,
      subList, isPrefixList, parseDecimal, decimalCore, pySplit, splitSeqGo,
      allDigits, digitsToNat, digitVal, isPySpace, List.dropWhile, List.reverse,
      List.filter, List.map, List.foldl, List.all, List.head?, List.tail,
      String.toList]
    norm_num +decide
  · simp +decide only [parse_number, pyStrip, stripChars, removeChar, replaceChar,
      subList, isPrefixList, parseDecimal, decimalCore, pySplit, splitSeqGo,
      allDigits, digitsToNat, digitVal, isPySpace, List.dropWhile, List.reverse,
      List.filter, List.map, List.foldl, List.all, List.head?, List.tail,
      String.toList]
    norm_num +decide
  · simp +decide only [parse_number, pyStrip, stripChars, removeChar, replaceChar,
      subList, isPrefixList, parseDecimal, decimalCore, pySplit, splitSeqGo,
      allDigits, digitsToNat, digitVal, isPySpace, List.dropWhile, List.reverse,
      List.filter, List.map, List.foldl, List.all, List.head?, List.tail,
      String.toList]
    norm_num +decide
  · decide
  · decide
  · decide

/-- **C5** (counterexample).  The gross-price post-processing of
`_run_import` does not behave as claimed: on the German-notation value
`"1.234,56"` its plain comma→dot conversion fails and the record loses
the price entirely (while the claimed pipeline would store 1037.45),
and on `"119"` with a configured tax rate of 7% the code still divides
by the hardcoded 1.19 and stores 100.0 (the claimed pipeline would
store 111.21). -/
theorem brutto_conversion_counterexample :
    processBrutto [("standard_rate_brutto", .str "1.234,56")] = [] ∧
    processBruttoClaimed 19 [("standard_rate_brutto", .str "1.234,56")] =
      [("standard_rate", .float (103745/100))] ∧
    processBrutto [("standard_rate_brutto", .str "119")] =
      [("standard_rate", .float 100)] ∧
    processBruttoClaimed 7 [("standard_rate_brutto", .str "119")] =
      [("standard_rate", .float (11121/100))] := by
  have hp1 : parse_number (.str "1.234,56") true = some ((123456 : ℚ)/100) := by
    simp +decide only [parse_number, pyStrip, stripChars, removeChar, replaceChar,
      subList, isPrefixList, parseDecimal, decimalCore, pySplit, splitSeqGo,
      allDigits, digitsToNat, digitVal, isPySpace, List.dropWhile, List.reverse,
      List.filter, List.map, List.foldl, List.all, List.head?, List.tail,
      String.toList]
    norm_num +decide
  have hp2 : parse_number (.str "119") true = some ((119 : ℚ)) := by
    simp +decide only [parse_number, pyStrip, stripChars, removeChar, replaceChar,
      subList, isPrefixList, parseDecimal, decimalCore, pySplit, splitSeqGo,
      allDigits, digitsToNat, digitVal, isPySpace, List.dropWhile, List.reverse,
      List.filter, List.map, List.foldl, List.all, List.head?, List.tail,
      String.toList]
    try norm_num +decide
  have hb1 : brutto_to_netto ((123456 : ℚ)/100) 19 = 103745/100 := by
    unfold brutto_to_netto pyRound2
    rw [if_neg (by norm_num)]
    rw [show ((123456 : ℚ)/100 / (1 + 19/100) * 100) = 12345600/119 by norm_num]
    rw [roundHalfEven_eq_high (12345600/119) 103744 (by norm_num) (by norm_num)]
    try norm_num
  have hb2 : brutto_to_netto ((119 : ℚ)) 7 = 11121/100 := by
    unfold brutto_to_netto pyRound2
    rw [if_neg (by norm_num)]
    rw [show ((119 : ℚ) / (1 + 7/100) * 100) = 1190000/107 by norm_num]
    rw [roundHalfEven_eq_low (1190000/107) 11121 (by norm_num) (by norm_num)]
    try norm_num
  refine ⟨by decide, ?_, ?_, ?_⟩
  · unfold processBruttoClaimed
    rw [if_pos (by decide)]
    dsimp only
    rw [show rgetD [("standard_rate_brutto", PyVal.str "1.234,56")]
        "standard_rate_brutto" (.str "") = .str "1.234,56" from by decide]
    rw [hp1]
    dsimp only
    rw [show rpop [("standard_rate_brutto", PyVal.str "1.234,56")]
        "standard_rate_brutto" = ([] : Record) from by decide]
    rw [hb1]
    simp [rset, rhas]
  · unfold processBrutto
    rw [if_pos (by decide)]
    dsimp only
    rw [show rgetD [("standard_rate_brutto", PyVal.str "119")]
        "standard_rate_brutto" (.str "") = .str "119" from by decide]
    rw [show pyFloatCoerce (.str "119") = some ((119 : ℚ)) from by
      simp +decide only [pyFloatCoerce, removeChar, replaceChar, parseDecimal,
        decimalCore, pySplit, splitSeqGo, allDigits, digitsToNat, digitVal,
        List.filter, List.map, List.foldl, List.all, List.head?, List.tail,
        String.toList]
      try norm_num +decide]
    dsimp only
    rw [show rpop [("standard_rate_brutto", PyVal.str "119")]
        "standard_rate_brutto" = ([] : Record) from by decide]
    rw [show pyRound2 ((119 : ℚ) / (119/100)) = 100 from by
      unfold pyRound2
      rw [show ((119 : ℚ) / (119/100) * 100) = 10000 by norm_num]
      rw [roundHalfEven_eq_low 10000 10000 (by norm_num) (by norm_num)]
      try norm_num]
    simp [rset, rhas]
  · unfold processBruttoClaimed
    rw [if_pos (by decide)]
    dsimp only
    rw [show rgetD [("standard_rate_brutto", PyVal.str "119")]
        "standard_rate_brutto" (.str "") = .str "119" from by decide]
    rw [hp2]
    dsimp only
    rw [show rpop [("standard_rate_brutto", PyVal.str "119")]
        "standard_rate_brutto" = ([] : Record) from by decide]
    rw [hb2]
    simp [rset, rhas]

/-- **C5** (amended).  The gross-price post-processing always discards
the gross key; when the value survives the plain comma→dot `float`
conversion, the net price is `round(gross / 1.19, 2)` — a hardcoded 19%
rate, not the configured one — stored under `standard_rate`; when the
conversion fails (e.g. on German thousands-separator notation) the
price is dropped silently. -/
theorem brutto_conversion_amended (item : Record) (q : ℚ) :
    rhas (processBrutto item) "standard_rate_brutto" = false ∧
    processBrutto [("standard_rate_brutto", .float q)] =
      [("standard_rate", .float (pyRound2 (q / (119/100))))] ∧
    processBrutto [("standard_rate_brutto", .str "119,00")] =
      [("standard_rate", .float 100)] ∧
    processBrutto [("standard_rate_brutto", .str "1.234,56")] = [] := by
  refine ⟨?_, ?_, ?_, by decide⟩
  · unfold processBrutto
    by_cases h : rhas item "standard_rate_brutto" = true
    · rw [if_pos h]
      dsimp only
      cases pyFloatCoerce (rgetD item "standard_rate_brutto" (.str "")) with
      | none => simp [rhas_rpop]
      | some w => simp [rhas_rset, rhas_rpop]
    · rw [if_neg h]
      simpa using h
  · unfold processBrutto
    rw [if_pos (by simp [rhas])]
    dsimp only
    rw [show rgetD [("standard_rate_brutto", PyVal.float q)]
        "standard_rate_brutto" (.str "") = .float q from by
      simp [rgetD, rget, List.find?]]
    rw [show pyFloatCoerce (.float q) = some q from rfl]
    dsimp only
    rw [show rpop [("standard_rate_brutto", PyVal.float q)]
        "standard_rate_brutto" = ([] : Record) from by simp [rpop]]
    simp [rset, rhas]
  · unfold processBrutto
    rw [if_pos (by decide)]
    dsimp only
    rw [show rgetD [("standard_rate_brutto", PyVal.str "119,00")]
        "standard_rate_brutto" (.str "") = .str "119,00" from by decide]
    rw [show pyFloatCoerce (.str "119,00") = some ((119 : ℚ)) from by
      simp +decide only [pyFloatCoerce, removeChar, replaceChar, parseDecimal,
        decimalCore, pySplit, splitSeqGo, allDigits, digitsToNat, digitVal,
        List.filter, List.map, List.foldl, List.all, List.head?, List.tail,
        String.toList]
      norm_num +decide]
    dsimp only
    rw [show rpop [("standard_rate_brutto", PyVal.str "119,00")]
        "standard_rate_brutto" = ([] : Record) from by decide]
    rw [show pyRound2 ((119 : ℚ) / (119/100)) = 100 from by
      unfold pyRound2
      rw [show ((119 : ℚ) / (119/100) * 100) = 10000 by norm_num]
      rw [roundHalfEven_eq_low 10000 10000 (by norm_num) (by norm_num)]
      try norm_num]
    simp [rset, rhas]

/-- **C6** (counterexample).  The barcode post-processing of
`_run_import` does not apply `is_valid_barcode`: the denylisted
placeholder `"4017980000000"` and the non-digit string `"abc12345"` are
both stored under `gtin`, although `is_valid_barcode` rejects both and
the claimed pipeline would drop them. -/
theorem barcode_validation_counterexample :
    processBarcode [("barcode", .str "4017980000000")] =
      [("gtin", .str "4017980000000")] ∧
    is_valid_barcode "4017980000000" = false ∧
    processBarcodeClaimed [("barcode", .str "4017980000000")] = [] ∧
    processBarcode [("barcode", .str "abc12345")] = [("gtin", .str "abc12345")] ∧
    is_valid_barcode "abc12345" = false := by decide

/-- **C6** (amended).  The barcode post-processing always discards the
raw `barcode` key, and keeps the stripped value under `gtin` iff it is
at least 8 characters long and not the literal `"0"` — digits are not
required and the placeholder denylist is not consulted
(`is_valid_barcode` is not called on this path). -/
theorem barcode_post_processing_amended (item : Record) (s : String) :
    rhas (processBarcode item) "barcode" = false ∧
    processBarcode [("barcode", .str s)] =
      (if 8 ≤ (pyStrip s).length ∧ pyStrip s ≠ "0" then
        [("gtin", .str (pyStrip s))] else []) := by
  constructor
  · unfold processBarcode
    by_cases h : rhas item "barcode" = true
    · rw [if_pos h]
      dsimp only
      split_ifs <;> simp [rhas_rset, rhas_rpop]
    · rw [if_neg h]
      simpa using h
  · unfold processBarcode
    rw [if_pos (by simp [rhas])]
    dsimp only
    rw [show rgetD [("barcode", PyVal.str s)] "barcode" (.str "") = .str s from by
      simp [rgetD, rget, List.find?]]
    rw [show rpop [("barcode", PyVal.str s)] "barcode" = ([] : Record) from by
      simp [rpop]]
    have hstrip0 : pyStrip "" = "" := by decide
    have hlen : 8 ≤ (pyStrip s).length → (pyStrip s ≠ "" ∧ s ≠ "") := by
      intro h8
      constructor
      · intro h
        rw [h] at h8
        exact absurd h8 (by decide)
      · intro h
        rw [h, hstrip0] at h8
        exact absurd h8 (by decide)
    simp only [PyVal.pyStr, PyVal.truthy, rset, rhas, List.any_nil,
      Bool.false_eq_true, if_false, List.nil_append]
    split_ifs with hA hB hC hD hE
    · rfl
    · exact absurd ⟨hB.1, hB.2.1⟩ hC
    · exact absurd ⟨hD.1, hD.2, (hlen hD.1).1⟩ hB
    · rfl
    · exact absurd (by simp [(hlen hE.1).2, (hlen hE.1).1]) hA
    · rfl
theorem transformStep_truthy (row : SourceRow) (item : Record)
    (p : String × FieldMapping)
    (h : ∀ k v, rget item k = some v → v.truthy = true) :
    ∀ k v, rget (transformStep row item p) k = some v → v.truthy = true := by
  intro k v hv
  unfold transformStep at hv
  by_cases ht : (applyTransform p.2.transform
      (if rowGet row p.1 = "" then p.2.default_value else rowGet row p.1)).truthy = true
  · rw [if_pos ht, rget_rset] at hv
    by_cases hk : k = p.2.target_field
    · rw [if_pos hk] at hv
      cases hv
      exact ht
    · rw [if_neg hk] at hv
      exact h k v hv
  · rw [if_neg ht] at hv
    exact h k v hv

theorem transformFold_truthy (row : SourceRow) (ms : MapState) :
    ∀ (init : Record), (∀ k v, rget init k = some v → v.truthy = true) →
    ∀ k v, rget (ms.foldl (transformStep row) init) k = some v → v.truthy = true := by
  induction ms with
  | nil => intro init h k v hv; exact h k v hv
  | cons m ms ih =>
    intro init h k v hv
    rw [List.foldl_cons] at hv
    exact ih (transformStep row init m) (transformStep_truthy row init m h) k v hv

/-- **C4** (counterexample).  The row transformation writes values
through `if value:`, i.e. Python truthiness, not an empty-string test:
a numeric 0 produced by the number transform and a boolean false
produced by the bool transform are silently omitted from the record,
contrary to the claim that they are kept. -/
theorem truthiness_write_counterexample :
    applyTransform "number" "0" = .float 0 ∧
    rhas (transformRow [("Preis", "0")]
      [("Preis", ⟨"Preis", "standard_rate", "number", ""⟩)]) "standard_rate" = false ∧
    applyTransform "bool" "nein" = .bool false ∧
    rhas (transformRow [("Aktiv", "nein")]
      [("Aktiv", ⟨"Aktiv", "disabled", "bool", ""⟩)]) "disabled" = false := by decide

/-- **C4** (amended).  The row transformation writes a transformed value
into the record iff the value is Python-truthy: empty strings, numeric
0 and boolean false are all omitted; non-zero numbers, `True` and
non-empty strings are kept. -/
theorem truthiness_write_amended (row : SourceRow) (mappings : MapState)
    (k : String) (v : PyVal)
    (h : rget (transformRow row mappings) k = some v) :
    v.truthy = true ∧
    transformRow [("Preis", "5")]
      [("Preis", ⟨"Preis", "standard_rate", "number", ""⟩)] =
      [("standard_rate", .float 5)] ∧
    transformRow [("Aktiv", "ja")]
      [("Aktiv", ⟨"Aktiv", "disabled", "bool", ""⟩)] =
      [("disabled", .bool true)] ∧
    transformRow [("Name", "")]
      [("Name", ⟨"Name", "item_name", "none", ""⟩)] = ([] : Record) := by
  refine ⟨?_, by decide, by decide, by decide⟩
  exact transformFold_truthy row mappings []
    (by intro k v hv; simp [rget] at hv) k v h

/-- Closed witness for the amended C4 theorem at a concrete input. -/
theorem truthiness_write_amended_witness :
    rget (transformRow [("A", "x")] [("A", ⟨"A", "f1", "none", ""⟩)]) "f1" =
      some (.str "x") ∧
    (PyVal.str "x").truthy = true :=
  ⟨by decide,
    (truthiness_write_amended [("A", "x")] [("A", ⟨"A", "f1", "none", ""⟩)]
      "f1" (.str "x") (by decide)).1⟩

/-- **C9** (counterexample).  The fuzzy step of `auto_map_fields` is
one-directional: it only accepts a rule whose key is a substring of the
normalized column name, never the reverse.  The column `"VK"` — whose
normalized name `"vk"` is a substring of the rule key `"vk netto"` —
would map to `standard_rate` under the claimed bidirectional algorithm
but is left unmapped by the code. -/
theorem fuzzy_match_counterexample :
    autoMapTarget "VK" = "" ∧
    autoMapTargetClaimed "VK" = "standard_rate" ∧
    ¬ autoMapTarget "VK" = autoMapTargetClaimed "VK" := by decide

/-- **C9** (amended).  Per source column, `auto_map_fields` tries in
order with first match winning: (1) exact lookup of the normalized name
(lowercase, spaces and hyphens to underscores); (2) exact lookup after
additionally stripping characters outside `[a-z0-9_]`; (3) fuzzy match
accepting the first rule whose key is a substring of the normalized
name (one direction only); (4) otherwise the column stays unmapped. -/
theorem auto_mapping_cascade_amended (s : String) :
    autoMapTarget s = autoMapTargetAmendedSpec s ∧
    autoMapTarget "VK Brutto" = "standard_rate_brutto" ∧
    autoMapTarget "(Preis)" = "standard_rate" ∧
    autoMapTarget "Mein Preis" = "standard_rate" ∧
    autoMapTarget "Spalte X" = "" := by
  refine ⟨?_, by decide, by decide, by decide, by decide⟩
  unfold autoMapTarget autoMapTargetAmendedSpec
  dsimp only
  cases hcl : rulesLookup (colLower s) with
  | some t => rfl
  | none =>
    cases hcn : rulesLookup (colNormalized s) with
    | some t => rfl
    | none =>
      cases hf : AUTO_MAPPING_RULES.find? (fun p => containsSub (colLower s) p.1) with
      | some p => rfl
      | none => rfl

/-- **C1** (counterexample).  The duplicate-target invariant is not
enforced uniformly: the rule-based `auto_map_fields` pass only skips
targets already used within the same pass and ignores pre-existing
mappings.  Starting from a manual mapping `Spalte X → item_name`, the
pass assigns `item_name` to the column `Name` as well — no eviction, no
notice — leaving two source columns holding the same target field. -/
theorem duplicate_target_counterexample :
    ((auto_map_fields ((on_mapping_changed [] "Spalte X" "item_name").1)
      ["Name"]).filter (fun p => p.2.target_field = "item_name")).length = 2 ∧
    ((auto_map_fields ((on_mapping_changed [] "Spalte X" "item_name").1)
      ["Name"]).map (fun p => (p.1, p.2.target_field))) =
      [("Spalte X", "item_name"), ("Name", "item_name")] ∧
    (auto_map_fields ((on_mapping_changed [] "Spalte X" "item_name").1)
      ["Name"]) ≠ ((on_mapping_changed [] "Spalte X" "item_name").1) := by decide

/-- **C1** (amended).  Only a manual single-column edit
(`on_mapping_changed`) evicts: after it, the edited column holds the
target, no other column holds it, and one notice is logged per evicted
prior holder (the notice names the target field, not the evicted
column).  The rule-based and AI passes instead skip a column whose
matched target was already assigned within the same pass (first wins,
no eviction, no notice) and do not consult mappings that existed before
the pass.  In the concrete scenario, manually reassigning the duplicate
`VK Brutto` column to the already-claimed `item_code` ends with exactly
that column holding `item_code` and the prior holder's mapping removed. -/
theorem duplicate_target_amended (st : MapState) (col tgt : String)
    (h : tgt ≠ "") :
    (∀ p ∈ (on_mapping_changed st col tgt).1, p.2.target_field = tgt → p.1 = col) ∧
    (on_mapping_changed st col tgt).2.length =
      (st.filter (fun p => p.1 ≠ col ∧ p.2.target_field = tgt)).length ∧
    (on_mapping_changed ((on_mapping_changed
        ((on_mapping_changed [] "Artikel-Nr" "item_code").1)
        "VK Brutto" "standard_rate_brutto").1) "VK Brutto" "item_code") =
      ([("VK Brutto", ⟨"VK Brutto", "item_code", "none", ""⟩)],
        ["Feld item_code war bereits vergeben - altes Mapping entfernt"]) ∧
    auto_map_fields [] ["Name", "Bezeichnung"] =
      [("Name", FieldMapping.fresh "Name" "item_name")] ∧
    ai_apply_mappings [] ["A", "B"] [("A", "item_code"), ("B", "item_code")] =
      [("A", FieldMapping.fresh "A" "item_code")] := by
  refine ⟨?_, ?_, by decide, by decide, by decide⟩
  · unfold on_mapping_changed
    rw [if_pos h]
    dsimp only
    intro p hp htf
    split at hp
    · rcases List.mem_map.mp hp with ⟨q, hq, hfq⟩
      have hcond := (List.mem_filter.mp hq).2
      simp only [decide_eq_true_eq] at hcond
      by_cases hqc : q.1 = col
      · rw [if_pos hqc] at hfq
        rw [← hfq]
        exact hqc
      · rw [if_neg hqc] at hfq
        rw [← hfq] at htf ⊢
        exact absurd ⟨hqc, htf⟩ hcond
    · rcases List.mem_append.mp hp with hin | hone
      · have hcond := (List.mem_filter.mp hin).2
        simp only [decide_eq_true_eq] at hcond
        by_contra hqc
        exact hcond ⟨hqc, htf⟩
      · rw [List.mem_singleton.mp hone]
  · unfold on_mapping_changed
    rw [if_pos h]
    dsimp only
    rw [List.length_map]

/-- Closed witness for the amended C1 theorem at a concrete input. -/
theorem duplicate_target_amended_witness :
    ("x" : String) ≠ "" ∧
    ((∀ p ∈ (on_mapping_changed [("A", FieldMapping.fresh "A" "x")] "B" "x").1,
        p.2.target_field = "x" → p.1 = "B") ∧
      (on_mapping_changed [("A", FieldMapping.fresh "A" "x")] "B" "x").2.length =
        ([("A", FieldMapping.fresh "A" "x")].filter
          (fun p => p.1 ≠ "B" ∧ p.2.target_field = "x")).length ∧
      (on_mapping_changed ((on_mapping_changed
          ((on_mapping_changed [] "Artikel-Nr" "item_code").1)
          "VK Brutto" "standard_rate_brutto").1) "VK Brutto" "item_code") =
        ([("VK Brutto", ⟨"VK Brutto", "item_code", "none", ""⟩)],
          ["Feld item_code war bereits vergeben - altes Mapping entfernt"]) ∧
      auto_map_fields [] ["Name", "Bezeichnung"] =
        [("Name", FieldMapping.fresh "Name" "item_name")] ∧
      ai_apply_mappings [] ["A", "B"] [("A", "item_code"), ("B", "item_code")] =
        [("A", FieldMapping.fresh "A" "item_code")]) :=
  ⟨by decide, duplicate_target_amended [("A", FieldMapping.fresh "A" "x")] "B" "x"
    (by decide)⟩

theorem create_item_group_preserves (api : ApiState) (l parent : String) :
    (create_item_group api l parent).2.1.defaultGroup = api.defaultGroup := by
  unfold create_item_group
  split_ifs <;> rfl

theorem ensureLoop_defaultGroup (lv : List String) :
    ∀ (api : ApiState) (parent last : String),
      (ensureLoop api parent last lv).api.defaultGroup = api.defaultGroup := by
  induction lv with
  | nil => intro api parent last; rfl
  | cons l rest ih =>
    intro api parent last
    unfold ensureLoop
    by_cases hex : get_item_group api l = true
    · rw [if_pos hex]
      exact ih api l l
    · rw [if_neg hex]
      dsimp only
      by_cases hc : (create_item_group api l parent).1 = true
      · rw [if_pos hc]
        rw [show ({ ensureLoop (create_item_group api l parent).2.1 l l rest with
            calls := (create_item_group api l parent).2.2 ++
              (ensureLoop (create_item_group api l parent).2.1 l l rest).calls,
            logs := ("Kategorie erstellt: " ++ l ++ " (unter " ++ parent ++ ")") ::
              (ensureLoop (create_item_group api l parent).2.1 l l rest).logs
            } : EnsureResult).api =
          (ensureLoop (create_item_group api l parent).2.1 l l rest).api from rfl]
        rw [ih (create_item_group api l parent).2.1 l l]
        exact create_item_group_preserves api l parent
      · rw [if_neg hc]
        exact create_item_group_preserves api l parent

theorem ensureLoop_all_exist (lv : List String) :
    ∀ (api : ApiState) (parent last : String),
      (∀ x ∈ lv, x ∈ api.groups) →
      (ensureLoop api parent last lv).calls = [] ∧
      (ensureLoop api parent last lv).bottom = lv.getLastD last ∧
      (ensureLoop api parent last lv).api = api := by
  induction lv with
  | nil => intro api parent last _; exact ⟨rfl, rfl, rfl⟩
  | cons l rest ih =>
    intro api parent last h
    have hl : get_item_group api l = true := by
      simp only [get_item_group]
      exact decide_eq_true (h l (List.mem_cons_self l rest))
    unfold ensureLoop
    rw [if_pos hl]
    have hrest := ih api l l (fun x hx => h x (List.mem_cons_of_mem l hx))
    refine ⟨hrest.1, ?_, hrest.2.2⟩
    rw [List.getLastD_cons]
    exact hrest.2.1

theorem ensureLoop_success (lv : List String) :
    ∀ (api : ApiState) (parent last : String),
      (ensureLoop api parent last lv).failed = false →
      (∀ x ∈ lv, x ∈ (ensureLoop api parent last lv).api.groups) ∧
      (∀ g ∈ api.groups, g ∈ (ensureLoop api parent last lv).api.groups) ∧
      (ensureLoop api parent last lv).bottom = lv.getLastD last := by
  induction lv with
  | nil =>
    intro api parent last _
    refine ⟨?_, fun g hg => hg, rfl⟩
    intro x hx
    cases hx
  | cons l rest ih =>
    intro api parent last hf
    unfold ensureLoop at hf ⊢
    by_cases hex : get_item_group api l = true
    · rw [if_pos hex] at hf ⊢
      have hmem : l ∈ api.groups := by
        simpa [get_item_group] using hex
      have := ih api l l hf
      refine ⟨?_, this.2.1, ?_⟩
      · intro x hx
        rcases List.mem_cons.mp hx with rfl | hx
        · exact this.2.1 x hmem
        · exact this.1 x hx
      · rw [List.getLastD_cons]
        exact this.2.2
    · rw [if_neg hex] at hf ⊢
      dsimp only at hf ⊢
      by_cases hc : (create_item_group api l parent).1 = true
      · rw [if_pos hc] at hf ⊢
        have hstep : (create_item_group api l parent).2.1.groups =
            api.groups ++ [l] := by
          unfold create_item_group at hc ⊢
          rw [if_neg hex] at hc ⊢
          by_cases hok : api.groupCreateOk l = true
          · rw [if_pos hok]
          · rw [if_neg hok] at hc
            exact absurd hc (by simp)
        have := ih (create_item_group api l parent).2.1 l l hf
        refine ⟨?_, ?_, ?_⟩
        · intro x hx
          rcases List.mem_cons.mp hx with rfl | hx
          · apply this.2.1
            rw [hstep]
            exact List.mem_append_right _ (List.mem_singleton_self x)
          · exact this.1 x hx
        · intro g hg
          apply this.2.1
          rw [hstep]
          exact List.mem_append_left _ hg
        · rw [List.getLastD_cons]
          exact this.2.2
      · rw [if_neg hc] at hf
        exact absurd hf (by simp)

/-- **C8** (confirmed).  Re-running `ensure_category_hierarchy` with the
same levels against the state left by a first run that had no failed
creation issues zero create requests (every level short-circuits on the
existence check) and returns the same bottom category name. -/
theorem ensure_hierarchy_idempotent (api : ApiState) (levels : List String)
    (h : (ensure_category_hierarchy api levels).failed = false) :
    (ensure_category_hierarchy
      (ensure_category_hierarchy api levels).api levels).calls = [] ∧
    (ensure_category_hierarchy
      (ensure_category_hierarchy api levels).api levels).bottom =
      (ensure_category_hierarchy api levels).bottom := by
  by_cases h0 : levels = []
  · subst h0
    exact ⟨rfl, rfl⟩
  · by_cases h1 : (levels.filter (fun l => l ≠ "" ∧ pyStrip l ≠ "")).map pyStrip = []
    · have e1 : ensure_category_hierarchy api levels =
          ⟨api.defaultGroup, api, [], [], false⟩ := by
        unfold ensure_category_hierarchy
        rw [if_neg h0]
        dsimp only
        rw [if_pos h1]
      rw [e1]
      rw [show (⟨api.defaultGroup, api, [], [], false⟩ : EnsureResult).api = api
        from rfl, e1]
      exact ⟨rfl, rfl⟩
    · have e1 : ensure_category_hierarchy api levels =
          ensureLoop api api.defaultGroup api.defaultGroup
            ((levels.filter (fun l => l ≠ "" ∧ pyStrip l ≠ "")).map pyStrip) := by
        unfold ensure_category_hierarchy
        rw [if_neg h0]
        dsimp only
        rw [if_neg h1]
      rw [e1] at h ⊢
      have e2 : ensure_category_hierarchy
          (ensureLoop api api.defaultGroup api.defaultGroup
            ((levels.filter (fun l => l ≠ "" ∧ pyStrip l ≠ "")).map pyStrip)).api
          levels =
          ensureLoop
            (ensureLoop api api.defaultGroup api.defaultGroup
              ((levels.filter (fun l => l ≠ "" ∧ pyStrip l ≠ "")).map pyStrip)).api
            (ensureLoop api api.defaultGroup api.defaultGroup
              ((levels.filter (fun l => l ≠ "" ∧ pyStrip l ≠ "")).map pyStrip)).api.defaultGroup
            (ensureLoop api api.defaultGroup api.defaultGroup
              ((levels.filter (fun l => l ≠ "" ∧ pyStrip l ≠ "")).map pyStrip)).api.defaultGroup
            ((levels.filter (fun l => l ≠ "" ∧ pyStrip l ≠ "")).map pyStrip) := by
        unfold ensure_category_hierarchy
        rw [if_neg h0]
        dsimp only
        rw [if_neg h1]
      rw [e2, ensureLoop_defaultGroup]
      have hs := ensureLoop_success
        ((levels.filter (fun l => l ≠ "" ∧ pyStrip l ≠ "")).map pyStrip)
        api api.defaultGroup api.defaultGroup h
      have ha := ensureLoop_all_exist
        ((levels.filter (fun l => l ≠ "" ∧ pyStrip l ≠ "")).map pyStrip)
        (ensureLoop api api.defaultGroup api.defaultGroup
          ((levels.filter (fun l => l ≠ "" ∧ pyStrip l ≠ "")).map pyStrip)).api
        api.defaultGroup api.defaultGroup hs.1
      refine ⟨ha.1, ?_⟩
      rw [ha.2.1, hs.2.2]

/-- Closed witness for the C8 theorem at a concrete input. -/
theorem ensure_hierarchy_idempotent_witness :
    (ensure_category_hierarchy sampleApi ["A", "B"]).failed = false ∧
    ((ensure_category_hierarchy
        (ensure_category_hierarchy sampleApi ["A", "B"]).api ["A", "B"]).calls = [] ∧
      (ensure_category_hierarchy
        (ensure_category_hierarchy sampleApi ["A", "B"]).api ["A", "B"]).bottom =
        (ensure_category_hierarchy sampleApi ["A", "B"]).bottom) :=
  ⟨by decide, ensure_hierarchy_idempotent sampleApi ["A", "B"] (by decide)⟩

theorem rowCategory_nonprod (cfg : RunConfig) (api : ApiState) (item : Record)
    (h : ¬ (cfg.importType = "artikel" ∨ cfg.importType = "preise")) :
    rowCategory cfg api item = some (item, api, [], []) := by
  unfold rowCategory
  rw [if_neg h]

theorem rowCategory_isNone (cfg : RunConfig) (api : ApiState) (item : Record) :
    (rowCategory cfg api item).isNone = categoryRaises cfg item := by
  unfold rowCategory categoryRaises
  by_cases hp : cfg.importType = "artikel" ∨ cfg.importType = "preise"
  · rw [if_pos hp, if_pos hp]
    cases hc : rowCategoryCore cfg item with
    | none => rfl
    | some pc =>
      unfold categoryFinishRaises
      dsimp only
      by_cases h1 : pc.2 ≠ [] ∧ cfg.hasApi = true ∧ ¬ cfg.dryRun = true
      · rw [if_pos h1, if_pos h1]
        by_cases h2 : pc.2.any (fun l => l.truthy && !l.isStr) = true
        · rw [if_pos h2, h2]
          rfl
        · have h2f := Bool.eq_false_iff.mpr h2
          rw [if_neg h2, h2f]
          rfl
      · rw [if_neg h1, if_neg h1]
        by_cases h3 : pc.2 ≠ [] ∧ cfg.dryRun = true
        · rw [if_pos h3, if_pos h3]
          by_cases h4 : pc.2.any (fun l => !l.isStr) = true
          · rw [if_pos h4, h4]
            rfl
          · have h4f := Bool.eq_false_iff.mpr h4
            rw [if_neg h4, h4f]
            rfl
        · rw [if_neg h3, if_neg h3]
          rfl
  · rw [if_neg hp, if_neg hp]
    rfl

theorem rowDecision_contin (cfg : RunConfig) (api : ApiState) (i : ℕ)
    (idf : String) (item : Record) :
    (rowDecision cfg api i idf item).contin =
      (if cfg.dryRun ∨ ¬ cfg.hasApi then false
       else if cfg.importType = "attribute" then
         ¬ (rgetD item "attribute_name" (.str "")).truthy ∨
         ((rgetD item "attribute_values" (.str "")).truthy ∧
           ¬ (rgetD item "attribute_values" (.str "")).isStr)
       else if cfg.importType = "varianten" then
         ¬ (rgetD item "item_code" (.str "")).truthy ∨
         ¬ (rgetD item "variant_of" (.str "")).truthy ∨
         variantAttributes item = []
       else false) := by
  unfold rowDecision
  by_cases hdry : cfg.dryRun = true
  · rw [if_pos hdry, if_pos (Or.inl hdry)]
  · rw [if_neg hdry]
    by_cases hapi : cfg.hasApi = true
    · have hno : ¬ ¬ cfg.hasApi = true := fun hh => hh hapi
      have hcond : ¬ (cfg.dryRun = true ∨ ¬ cfg.hasApi = true) := by
        rintro (hh | hh)
        · exact hdry hh
        · exact hh hapi
      rw [if_neg hno, if_neg hcond]
      by_cases hprod : cfg.importType = "artikel" ∨ cfg.importType = "preise"
      · have hna : ¬ cfg.importType = "attribute" := by
          rcases hprod with hh | hh <;> rw [hh] <;> decide
        have hnv : ¬ cfg.importType = "varianten" := by
          rcases hprod with hh | hh <;> rw [hh] <;> decide
        rw [if_pos hprod, if_neg hna, if_neg hnv]
        unfold productDecision
        dsimp only
        split_ifs <;> rfl
      · rw [if_neg hprod]
        by_cases hkat : cfg.importType = "kategorien"
        · have hna : ¬ cfg.importType = "attribute" := by rw [hkat]; decide
          have hnv : ¬ cfg.importType = "varianten" := by rw [hkat]; decide
          rw [if_pos hkat, if_neg hna, if_neg hnv]
          unfold categoryDecision
          dsimp only
          split_ifs <;> rfl
        · rw [if_neg hkat]
          by_cases hattr : cfg.importType = "attribute"
          · rw [if_pos hattr, if_pos hattr]
            unfold attributeDecision
            dsimp only
            by_cases hn : ¬ (rgetD item "attribute_name" (.str "")).truthy = true
            · rw [if_pos hn]
              exact (decide_eq_true (Or.inl hn)).symm
            · rw [if_neg hn]
              by_cases hv : (rgetD item "attribute_values" (.str "")).truthy = true ∧
                  ¬ (rgetD item "attribute_values" (.str "")).isStr = true
              · rw [if_pos hv]
                exact (decide_eq_true (Or.inr hv)).symm
              · rw [if_neg hv]
                rw [decide_eq_false (by
                  rintro (hh | hh)
                  · exact hn hh
                  · exact hv hh)]
                split_ifs <;> rfl
          · rw [if_neg hattr, if_neg hattr]
            by_cases hvar : cfg.importType = "varianten"
            · rw [if_pos hvar, if_pos hvar]
              unfold variantDecision
              dsimp only
              by_cases h1 : ¬ (rgetD item "item_code" (.str "")).truthy = true ∨
                  ¬ (rgetD item "variant_of" (.str "")).truthy = true
              · rw [if_pos h1]
                refine (decide_eq_true ?_).symm
                rcases h1 with hh | hh
                · exact Or.inl hh
                · exact Or.inr (Or.inl hh)
              · rw [if_neg h1]
                by_cases h2 : variantAttributes item = []
                · rw [if_pos h2]
                  exact (decide_eq_true (Or.inr (Or.inr h2))).symm
                · rw [if_neg h2]
                  rw [decide_eq_false (by
                    rintro (hh | hh | hh)
                    · exact h1 (Or.inl hh)
                    · exact h1 (Or.inr hh)
                    · exact h2 hh)]
                  split_ifs <;> rfl
            · rw [if_neg hvar, if_neg hvar]
    · have hno : ¬ cfg.hasApi = true := hapi
      rw [if_pos hno, if_pos (Or.inr hno)]

theorem rowBody_progress (cfg : RunConfig) (total : ℕ) (api : ApiState)
    (i : ℕ) (item : Record) :
    (rowBody cfg total api i item).progress =
      (if itemHardFail cfg item then [] else [(i + 1, total)]) := by
  unfold rowBody itemHardFail
  have hn := rowCategory_isNone cfg api item
  cases hrc : rowCategory cfg api item with
  | none =>
    rw [hrc] at hn
    simp only [Option.isNone_none] at hn
    by_cases hp : cfg.importType = "artikel" ∨ cfg.importType = "preise"
    · rw [if_pos hp, ← hn]
      rfl
    · rw [rowCategory_nonprod cfg api item hp] at hrc
      exact absurd hrc (by simp)
  | some rc =>
    rw [hrc] at hn
    simp only [Option.isNone_some] at hn
    dsimp only
    rw [rowDecision_contin]
    by_cases hp : cfg.importType = "artikel" ∨ cfg.importType = "preise"
    · rw [if_pos hp, ← hn]
      have hna : ¬ cfg.importType = "attribute" := by
        rcases hp with hh | hh <;> rw [hh] <;> decide
      have hnv : ¬ cfg.importType = "varianten" := by
        rcases hp with hh | hh <;> rw [hh] <;> decide
      by_cases hd : cfg.dryRun = true ∨ ¬ cfg.hasApi = true
      · rw [if_pos hd]
      · rw [if_neg hd, if_neg hna, if_neg hnv]
    · rw [if_neg hp]
      have he : rc = (item, api, [], []) := by
        have h2 := rowCategory_nonprod cfg api item hp
        rw [hrc] at h2
        exact Option.some.inj h2
      rw [he]

theorem rowStep_progress (cfg : RunConfig) (mappings : MapState) (total : ℕ)
    (api : ApiState) (i : ℕ) (row : SourceRow) :
    (rowStep cfg mappings total api i row).progress =
      (if rowHardFail cfg mappings row then [] else [(i + 1, total)]) := by
  unfold rowStep rowHardFail
  exact rowBody_progress cfg total api i (assembledRecord row mappings)

theorem run_import_progress_fold (cfg : RunConfig) (mappings : MapState)
    (total : ℕ) (l : List (ℕ × SourceRow)) :
    ∀ (st : RunState),
      (l.foldl (stepFold cfg mappings total) st).progress =
        st.progress ++ ((l.filter (fun p => ¬ rowHardFail cfg mappings p.2)).map
          (fun p => (p.1 + 1, total))) := by
  induction l with
  | nil => intro st; simp
  | cons p l ih =>
    intro st
    rw [List.foldl_cons, ih]
    have hstep : (stepFold cfg mappings total st p).progress =
        st.progress ++ (if rowHardFail cfg mappings p.2 then [] else [(p.1 + 1, total)]) := by
      unfold stepFold
      dsimp only
      rw [rowStep_progress]
    rw [hstep]
    by_cases hf : rowHardFail cfg mappings p.2 = true
    · rw [if_pos hf]
      rw [List.filter_cons_of_neg (by simp [hf])]
      simp
    · rw [if_neg hf]
      rw [List.filter_cons_of_pos (by simp [hf])]
      simp

/-- **C2** (counterexample).  The progress report of `_run_import` sits
inside the row body after the decision code, and the row-level
hard-requirement failures reach `continue` before it: an `attribute`
row whose attribute name is empty is counted as an error and logged,
but its progress report never fires — with one such row the batch ends
with an empty progress trace instead of the claimed one-report-per-row. -/
theorem progress_skip_counterexample :
    (run_import ⟨"attribute", "create", false, true⟩ sampleApi
      [("Name", FieldMapping.fresh "Name" "attribute_name")]
      [[("Name", "")]]).progress = [] ∧
    (run_import ⟨"attribute", "create", false, true⟩ sampleApi
      [("Name", FieldMapping.fresh "Name" "attribute_name")]
      [[("Name", "")]]).errors = 1 ∧
    ([[("Name", "")]] : List SourceRow).length = 1 := by decide

/-- **C2** (amended).  The progress callback fires exactly once per row,
in row order, for every row except those that skip it: rows failing a
row-level hard requirement in a live run (empty attribute name for the
`attribute` kind; missing variant code/template or zero resolved
attributes for the `varianten` kind) reach `continue` before the
report, and rows that raise inside the body (a non-string category
level or path at the join/strip/parse sites, a non-string
`attribute_values` at the split) are caught by the per-row `except`
after the report is already bypassed: all of these are counted as
errors, and their progress report is skipped. -/
theorem progress_reporting_amended (cfg : RunConfig) (api : ApiState)
    (mappings : MapState) (rows : List SourceRow) :
    (run_import cfg api mappings rows).progress =
      (rows.enum.filter (fun p => ¬ rowHardFail cfg mappings p.2)).map
        (fun p => (p.1 + 1, rows.length)) := by
  unfold run_import
  rw [run_import_progress_fold]
  rfl

theorem rowCategory_dry (cfg : RunConfig) (api : ApiState) (item : Record)
    (h : cfg.dryRun = true) (rc : Record × ApiState × List ApiCall × List String)
    (hrc : rowCategory cfg api item = some rc) :
    rc.2.1 = api ∧ rc.2.2.1 = ([] : List ApiCall) := by
  unfold rowCategory at hrc
  by_cases hp : cfg.importType = "artikel" ∨ cfg.importType = "preise"
  · rw [if_pos hp] at hrc
    cases hc : rowCategoryCore cfg item with
    | none =>
      rw [hc] at hrc
      exact Option.noConfusion hrc
    | some pc =>
      rw [hc] at hrc
      dsimp only at hrc
      have hlive : ¬ (pc.2 ≠ [] ∧ cfg.hasApi = true ∧ ¬ cfg.dryRun = true) :=
        fun hh => hh.2.2 h
      rw [if_neg hlive] at hrc
      by_cases h2 : pc.2 ≠ [] ∧ cfg.dryRun = true
      · rw [if_pos h2] at hrc
        by_cases h3 : pc.2.any (fun l => !l.isStr) = true
        · rw [if_pos h3] at hrc
          exact Option.noConfusion hrc
        · rw [if_neg h3] at hrc
          have h4 := Option.some.inj hrc
          rw [← h4]
          exact ⟨rfl, rfl⟩
      · rw [if_neg h2] at hrc
        have h4 := Option.some.inj hrc
        rw [← h4]
        exact ⟨rfl, rfl⟩
  · rw [if_neg hp] at hrc
    have h4 := Option.some.inj hrc
    rw [← h4]
    exact ⟨rfl, rfl⟩

theorem rowBody_dry_weak (cfg : RunConfig) (total : ℕ) (api : ApiState)
    (i : ℕ) (item : Record) (h : cfg.dryRun = true) :
    (rowBody cfg total api i item).calls = [] ∧
    (rowBody cfg total api i item).dskipped = 0 ∧
    (rowBody cfg total api i item).dsuccess +
      (rowBody cfg total api i item).derrors = 1 := by
  unfold rowBody
  cases hrc : rowCategory cfg api item with
  | none => exact ⟨rfl, rfl, rfl⟩
  | some rc =>
    have hc := rowCategory_dry cfg api item h rc hrc
    dsimp only
    unfold rowDecision
    rw [if_pos h]
    refine ⟨?_, rfl, rfl⟩
    rw [hc.2]
    rfl

theorem rowStep_dry_weak (cfg : RunConfig) (mappings : MapState) (total : ℕ)
    (api : ApiState) (i : ℕ) (row : SourceRow) (h : cfg.dryRun = true) :
    (rowStep cfg mappings total api i row).calls = [] ∧
    (rowStep cfg mappings total api i row).dskipped = 0 ∧
    (rowStep cfg mappings total api i row).dsuccess +
      (rowStep cfg mappings total api i row).derrors = 1 := by
  unfold rowStep
  exact rowBody_dry_weak cfg total api i (assembledRecord row mappings) h

theorem rowBody_dry_full (cfg : RunConfig) (total : ℕ) (api : ApiState)
    (i : ℕ) (item : Record) (h : cfg.dryRun = true)
    (hok : itemHardFail cfg item = false) :
    (rowBody cfg total api i item).dsuccess = 1 ∧
    (rowBody cfg total api i item).derrors = 0 ∧
    (rowBody cfg total api i item).progress = [(i + 1, total)] := by
  have hcr : categoryRaises cfg item = false := by
    by_cases hp : cfg.importType = "artikel" ∨ cfg.importType = "preise"
    · unfold itemHardFail at hok
      rw [if_pos hp] at hok
      exact hok
    · unfold categoryRaises
      rw [if_neg hp]
  have hn := rowCategory_isNone cfg api item
  rw [hcr] at hn
  unfold rowBody
  cases hrc : rowCategory cfg api item with
  | none =>
    rw [hrc] at hn
    exact absurd hn (by simp)
  | some rc =>
    dsimp only
    unfold rowDecision
    rw [if_pos h]
    exact ⟨rfl, rfl, rfl⟩

theorem rowStep_dry_full (cfg : RunConfig) (mappings : MapState) (total : ℕ)
    (api : ApiState) (i : ℕ) (row : SourceRow) (h : cfg.dryRun = true)
    (hok : rowHardFail cfg mappings row = false) :
    (rowStep cfg mappings total api i row).dsuccess = 1 ∧
    (rowStep cfg mappings total api i row).derrors = 0 ∧
    (rowStep cfg mappings total api i row).progress = [(i + 1, total)] := by
  unfold rowStep
  unfold rowHardFail at hok
  exact rowBody_dry_full cfg total api i (assembledRecord row mappings) h hok

theorem run_import_dry_weak_fold (cfg : RunConfig) (mappings : MapState)
    (total : ℕ) (h : cfg.dryRun = true) (l : List (ℕ × SourceRow)) :
    ∀ (st : RunState),
      (l.foldl (stepFold cfg mappings total) st).calls = st.calls ∧
      (l.foldl (stepFold cfg mappings total) st).skipped = st.skipped ∧
      (l.foldl (stepFold cfg mappings total) st).success +
        (l.foldl (stepFold cfg mappings total) st).errors =
        st.success + st.errors + l.length := by
  induction l with
  | nil => intro st; exact ⟨rfl, rfl, by simp⟩
  | cons p l ih =>
    intro st
    rw [List.foldl_cons]
    have hr := rowStep_dry_weak cfg mappings total st.api p.1 p.2 h
    have h1 := ih (stepFold cfg mappings total st p)
    have ec : (stepFold cfg mappings total st p).calls =
        st.calls ++ (rowStep cfg mappings total st.api p.1 p.2).calls := rfl
    have ek : (stepFold cfg mappings total st p).skipped =
        st.skipped + (rowStep cfg mappings total st.api p.1 p.2).dskipped := rfl
    have es : (stepFold cfg mappings total st p).success =
        st.success + (rowStep cfg mappings total st.api p.1 p.2).dsuccess := rfl
    have ee : (stepFold cfg mappings total st p).errors =
        st.errors + (rowStep cfg mappings total st.api p.1 p.2).derrors := rfl
    refine ⟨?_, ?_, ?_⟩
    · rw [h1.1, ec, hr.1, List.append_nil]
    · rw [h1.2.1, ek, hr.2.1]
      omega
    · rw [h1.2.2, es, ee]
      have h2 := hr.2.2
      simp only [List.length_cons]
      omega

theorem run_import_dry_full_fold (cfg : RunConfig) (mappings : MapState)
    (total : ℕ) (h : cfg.dryRun = true) (l : List (ℕ × SourceRow)) :
    ∀ (st : RunState), (∀ p ∈ l, rowHardFail cfg mappings p.2 = false) →
      (l.foldl (stepFold cfg mappings total) st).success = st.success + l.length ∧
      (l.foldl (stepFold cfg mappings total) st).errors = st.errors ∧
      (l.foldl (stepFold cfg mappings total) st).progress =
        st.progress ++ l.map (fun p => (p.1 + 1, total)) := by
  induction l with
  | nil => intro st _; exact ⟨by simp, rfl, by simp⟩
  | cons p l ih =>
    intro st hall
    rw [List.foldl_cons]
    have hr := rowStep_dry_full cfg mappings total st.api p.1 p.2 h
      (hall p (List.mem_cons_self p l))
    have h1 := ih (stepFold cfg mappings total st p)
      (fun q hq => hall q (List.mem_cons_of_mem p hq))
    have es : (stepFold cfg mappings total st p).success =
        st.success + (rowStep cfg mappings total st.api p.1 p.2).dsuccess := rfl
    have ee : (stepFold cfg mappings total st p).errors =
        st.errors + (rowStep cfg mappings total st.api p.1 p.2).derrors := rfl
    have ep : (stepFold cfg mappings total st p).progress =
        st.progress ++ (rowStep cfg mappings total st.api p.1 p.2).progress := rfl
    refine ⟨?_, ?_, ?_⟩
    · rw [h1.1, es, hr.1]
      simp only [List.length_cons]
      omega
    · rw [h1.2.1, ee, hr.2.1]
      omega
    · rw [h1.2.2, ep, hr.2.2]
      simp

theorem snd_mem_of_mem_enumFrom {α : Type} (l : List α) :
    ∀ (n : ℕ) (p : ℕ × α), p ∈ l.enumFrom n → p.2 ∈ l := by
  induction l with
  | nil =>
    intro n p hp
    exact absurd hp (by simp)
  | cons a l ih =>
    intro n p hp
    rw [List.enumFrom_cons] at hp
    rcases List.mem_cons.mp hp with hh | hh
    · rw [hh]
      exact List.mem_cons_self a l
    · exact List.mem_cons_of_mem a (ih (n + 1) p hh)

/-- **C3** (counterexample).  A dry run is not error-free: a `bool`
(or `number`) transform can put a non-string under a category-level
key, and the dry-run branch then raises TypeError at the
`" > ".join(...)` of the intended-hierarchy log — the row is counted
as an error by the per-row `except`, gets no `[DRY]` log and no
progress report, refuting the claimed zero errors, every-row success
count and one-report-per-row. -/
theorem dry_run_error_counterexample :
    dryDemoCfg.dryRun = true ∧
    (run_import dryDemoCfg sampleApi dryCtrMaps dryCtrRows).calls = [] ∧
    (run_import dryDemoCfg sampleApi dryCtrMaps dryCtrRows).errors = 1 ∧
    (run_import dryDemoCfg sampleApi dryCtrMaps dryCtrRows).success = 0 ∧
    (run_import dryDemoCfg sampleApi dryCtrMaps dryCtrRows).progress = [] ∧
    (run_import dryDemoCfg sampleApi dryCtrMaps dryCtrRows).logs =
      ["Fehler Zeile 1"] ∧
    dryCtrRows.length = 1 := by decide

/-- **C3** (amended).  A run with `dry_run=true` issues zero remote
mutating calls and skips no rows, and every row is counted exactly once
(as a success or as an error).  Rows whose assembled category values
are all strings — in particular when no raising row exists at all — are
successes with one progress report each, in row order; for such rows
the deepest category level is stored literally as the catalog-group
value, and the intended chain and the record key set are logged.  A row
whose category level holds a non-string raises at the dry-run join
instead and is counted as an error without a progress report. -/
theorem dry_run_no_mutations_amended (cfg : RunConfig) (api : ApiState)
    (mappings : MapState) (rows : List SourceRow) (h : cfg.dryRun = true) :
    (run_import cfg api mappings rows).calls = [] ∧
    (run_import cfg api mappings rows).skipped = 0 ∧
    (run_import cfg api mappings rows).success +
      (run_import cfg api mappings rows).errors = rows.length ∧
    ((∀ row ∈ rows, rowHardFail cfg mappings row = false) →
      (run_import cfg api mappings rows).errors = 0 ∧
      (run_import cfg api mappings rows).success = rows.length ∧
      (run_import cfg api mappings rows).progress =
        rows.enum.map (fun p => (p.1 + 1, rows.length))) ∧
    (run_import dryDemoCfg sampleApi dryDemoMaps dryDemoRows).records =
      [[("item_code", .str "SKU1"), ("item_group", .str "Regale")]] ∧
    (run_import dryDemoCfg sampleApi dryDemoMaps dryDemoRows).logs =
      ["[DRY] Kategorie-Hierarchie: Möbel > Regale",
       "[DRY] SKU1: item_code, item_group"] := by
  have hw := run_import_dry_weak_fold cfg mappings rows.length h rows.enum
    ⟨0, 0, 0, [], [], [], api, []⟩
  unfold run_import
  refine ⟨hw.1, hw.2.1, ?_, ?_, by decide, by decide⟩
  · rw [hw.2.2]
    simp [List.enum_length]
  · intro hall
    have hf := run_import_dry_full_fold cfg mappings rows.length h rows.enum
      ⟨0, 0, 0, [], [], [], api, []⟩
      (fun p hp => hall p.2 (snd_mem_of_mem_enumFrom rows 0 p hp))
    refine ⟨hf.2.1, ?_, ?_⟩
    · rw [hf.1]
      simp [List.enum_length]
    · rw [hf.2.2]
      simp

/-- Closed witness for the C3 theorem at a concrete input. -/
theorem dry_run_no_mutations_amended_witness :
    dryDemoCfg.dryRun = true ∧
    ((run_import dryDemoCfg sampleApi dryDemoMaps dryDemoRows).calls = [] ∧
      (run_import dryDemoCfg sampleApi dryDemoMaps dryDemoRows).skipped = 0 ∧
      (run_import dryDemoCfg sampleApi dryDemoMaps dryDemoRows).success +
        (run_import dryDemoCfg sampleApi dryDemoMaps dryDemoRows).errors =
        dryDemoRows.length ∧
      ((∀ row ∈ dryDemoRows, rowHardFail dryDemoCfg dryDemoMaps row = false) →
        (run_import dryDemoCfg sampleApi dryDemoMaps dryDemoRows).errors = 0 ∧
        (run_import dryDemoCfg sampleApi dryDemoMaps dryDemoRows).success =
          dryDemoRows.length ∧
        (run_import dryDemoCfg sampleApi dryDemoMaps dryDemoRows).progress =
          dryDemoRows.enum.map (fun p => (p.1 + 1, dryDemoRows.length))) ∧
      (run_import dryDemoCfg sampleApi dryDemoMaps dryDemoRows).records =
        [[("item_code", .str "SKU1"), ("item_group", .str "Regale")]] ∧
      (run_import dryDemoCfg sampleApi dryDemoMaps dryDemoRows).logs =
        ["[DRY] Kategorie-Hierarchie: Möbel > Regale",
         "[DRY] SKU1: item_code, item_group"]) :=
  ⟨rfl, dry_run_no_mutations_amended dryDemoCfg sampleApi dryDemoMaps dryDemoRows rfl⟩

end ERPNextImporter
